import Mathlib

/-!
# Port-forward session orchestrator (`pkg/devspace/services/port_forwarding.go`)

A shallow embedding of `StartPortForwarding` and `startForwarding`.

* Go `error` values are `Option GoError` (`none` is `nil`).
* Every call to an external collaborator (hook emitter, selector resolution,
  target selector, port probe, channel opener, logger, `time.Sleep`) is
  recorded as an `Event`; a function returns the trace of the goroutine that
  runs it together with its Go result.  The answers of the collaborators are
  read from an environment record.
* `go` statements are recorded as events (`goForwardPorts`, `goWatcher`); the
  body of the watcher goroutine is the separate function `watcher`, and
  `runWatchers` runs the watchers of several Sessions against the one
  `interrupt` channel they share.
* `time.Duration` values are natural numbers of nanoseconds.
* Go `int` values are `Int`: the code does no arithmetic on them, it only
  prints them (`strconv.Itoa`, `%d`).
* Pointers that the code dereferences without a check (the entries of
  `Dev.Ports` and of `PortMappings`, the successful result of
  `util.ResolveImageAsImageSelector`) are modelled as non-nil.
-/

namespace DevSpace

/-! ## Data model -/

/-- Go error values built in this file: a message (`errors.Errorf`,
`fmt.Errorf`, or an error of a collaborator) or `errors.Wrap cause msg`. -/
inductive GoError where
  | new (text : String)
  | wrap (cause : GoError) (text : String)
  deriving DecidableEq, Repr

/-- The method `err.Error()`. -/
def GoError.Error : GoError → String
  | .new text => text
  | .wrap cause text => text ++ ": " ++ cause.Error

/-- The function `errors.Wrap` of `github.com/pkg/errors`: `nil` stays `nil`. -/
def errors.Wrap : Option GoError → String → Option GoError
  | none, _ => none
  | some e, text => some (.wrap e text)

/-- The function `strconv.Itoa`: the decimal form of an `int`. -/
def strconv.Itoa (i : Int) : String := toString i

/-- The function `strings.Join`. -/
def strings.Join (elems : List String) (sep : String) : String := sep.intercalate elems

/-- The constant `time.Second`, in nanoseconds. -/
def time.Second : Nat := 1000000000

/-- The type `latest.PortMapping`: `LocalPort *int`, `RemotePort *int`,
`BindAddress string`. -/
structure PortMapping where
  LocalPort : Option Int
  RemotePort : Option Int
  BindAddress : String
  deriving DecidableEq, Repr

/-- The fields of `latest.PortForwardingConfig` that the file reads. -/
structure PortForwardingConfig where
  ImageName : String
  ImageSelector : String
  LabelSelector : List (String × String)
  Namespace : String
  PortMappings : List PortMapping
  deriving DecidableEq, Repr

/-- An `imageselector.ImageSelector`, identified by its image. -/
structure ImageSelector where
  Image : String
  deriving DecidableEq, Repr

/-- The `targetselector.Options` as `startForwarding` sets them up: the four
arguments given to `ApplyConfigParameter` and the fields assigned after it
(`WaitingStrategy` is the duration given to
`NewUntilNewestRunningWaitingStrategy`). -/
structure Options where
  LabelSelector : List (String × String)
  Namespace : String
  ContainerName : String
  Pod : String
  AllowPick : Bool
  ImageSelector : List ImageSelector
  WaitingStrategy : Nat
  SkipInitContainers : Bool
  deriving DecidableEq, Repr

/-- The fields of the resolved pod that the file reads. -/
structure Pod where
  Namespace : String
  Name : String
  deriving DecidableEq, Repr

/-- The `generated.CacheConfig` handed through to restart attempts. -/
structure CacheConfig where
  id : Nat
  deriving DecidableEq, Repr

/-- The two loggers in play: `serviceClient.log` and `logpkg.Discard`. -/
inductive Logger where
  | client
  | discard
  deriving DecidableEq, Repr

/-- Observable actions of one goroutine. -/
inductive Event where
  /-- The call `plugin.ExecutePluginHookWithContext name {spec, error}`. -/
  | executeHook (name : String) (spec : PortForwardingConfig) (err : Option GoError)
  /-- The call `plugin.LogExecutePluginHookWithContext name {spec, error}`. -/
  | logExecuteHook (name : String) (spec : PortForwardingConfig) (err : Option GoError)
  /-- The call `serviceClient.startForwarding cache spec interrupt log`. -/
  | callStartForwarding (cache : CacheConfig) (spec : PortForwardingConfig) (log : Logger)
  /-- The call `imageselector.Resolve imageName ..`. -/
  | resolveImageName (imageName : String)
  /-- The call `util.ResolveImageAsImageSelector imageSelector ..`. -/
  | resolveImageAsImageSelector (imageSelector : String)
  | startWait (log : Logger) (text : String)
  | stopWait (log : Logger)
  /-- The call `SelectSinglePod ctx options log` on a new target selector. -/
  | selectSinglePod (options : Options)
  /-- The call `port.Check localPort`. -/
  | portCheck (localPort : Int)
  | warnf (log : Logger) (text : String)
  | donef (log : Logger) (text : String)
  | errorf (log : Logger) (text : String)
  /-- The call `serviceClient.client.NewPortForwarder pod ports addresses ..`. -/
  | newPortForwarder (pod : Pod) (ports : List String) (addresses : List String)
  /-- The statement `go func() { err := pf.ForwardPorts() .. }()`. -/
  | goForwardPorts
  /-- The statement `go func(portForwarding, interrupt) { select .. }(..)`. -/
  | goWatcher
  /-- The call `pf.Close()`. -/
  | pfClose
  /-- The call `time.Sleep d`. -/
  | sleep (d : Nat)
  deriving DecidableEq, Repr

abbrev Trace := List Event

/-- What the collaborators answer during one call of `startForwarding`.
`readyAt` and `errorAt` are the instants, in nanoseconds after the readiness
`select` is entered, at which `readyChan` and `errorChan` become receivable
(`none`: never); `pick` resolves the choice Go makes among cases that are
receivable at the same instant. -/
structure CallEnv where
  /-- The constant `message.SelectorErrorPod`. -/
  SelectorErrorPod : String
  resolveImageName : String → Except GoError (Option ImageSelector)
  resolveImageAsImageSelector : String → Except GoError ImageSelector
  selectSinglePod : Options → Except GoError (Option Pod)
  /-- First result of `port.Check`, for the mapping at an index. -/
  portCheck : Nat → Int → Bool
  newPortForwarder : Pod → List String → List String → Option GoError
  readyAt : Option Nat
  errorAt : Option (Nat × Option GoError)
  pick : Nat

/-! ## `startForwarding`, lines 93-117: the port-mapping loop -/

/-- State of the loop: the slices `ports` and `addresses` and the trace. -/
structure LoopState where
  ports : List String
  addresses : List String
  trace : Trace

/-- Lines 106-109: the probe of the local port and its warning. -/
def portProbe (portCheck : Nat → Int → Bool) (index : Nat) (lp : Int) : Trace :=
  if portCheck index lp = false then
    [.portCheck lp,
     .warnf .client ("Seems like port " ++ toString lp ++
        " is already in use. Is another application using that port?")]
  else [.portCheck lp]

/-- One pass of the loop body for a mapping with a local port. -/
def portMappingBody (portCheck : Nat → Int → Bool) (index : Nat) (lp : Int)
    (value : PortMapping) (s : LoopState) : LoopState :=
  let localPort := strconv.Itoa lp
  let remotePort :=
    match value.RemotePort with
    | some rp => strconv.Itoa rp
    | none => localPort
  let probe : Trace := portProbe portCheck index lp
  { ports := s.ports.set index (localPort ++ ":" ++ remotePort)
    addresses :=
      if value.BindAddress = "" then s.addresses.set index "localhost"
      else s.addresses.set index value.BindAddress
    trace := s.trace ++ probe }

/-- The statement `for index, value := range portForwarding.PortMappings`,
from position `index` on. -/
def portMappingsFrom (portCheck : Nat → Int → Bool) :
    List PortMapping → Nat → LoopState → Trace × Except GoError (List String × List String)
  | [], _, s => (s.trace, .ok (s.ports, s.addresses))
  | value :: rest, index, s =>
    match value.LocalPort with
    | none =>
      (s.trace, .error (.new ("port is not defined in portmapping " ++ toString index)))
    | some lp =>
      portMappingsFrom portCheck rest (index + 1) (portMappingBody portCheck index lp value s)

/-- Lines 93-117: both slices are made with `len(PortMappings)` empty strings
and the loop fills them. -/
def portMappingsLoop (portCheck : Nat → Int → Bool) (mappings : List PortMapping) :
    Trace × Except GoError (List String × List String) :=
  portMappingsFrom portCheck mappings 0
    { ports := List.replicate mappings.length ""
      addresses := List.replicate mappings.length ""
      trace := [] }

/-! ## `startForwarding`, lines 63-81: the selection criteria -/

/-- Lines 63-81: the options handed to the target selector, or the error of
one of the two image-selector resolutions. -/
def buildOptions (env : CallEnv) (portForwarding : PortForwardingConfig) :
    Trace × Except GoError Options :=
  let options : Options :=
    { LabelSelector := portForwarding.LabelSelector
      Namespace := portForwarding.Namespace
      ContainerName := ""
      Pod := ""
      AllowPick := false
      ImageSelector := []
      WaitingStrategy := 0
      SkipInitContainers := false }
  let t1 : Trace := [.resolveImageName portForwarding.ImageName]
  match env.resolveImageName portForwarding.ImageName with
  | .error err => (t1, .error err)
  | .ok imageSelector =>
    let options : Options :=
      match imageSelector with
      | some sel => { options with ImageSelector := options.ImageSelector ++ [sel] }
      | none => options
    if portForwarding.ImageSelector ≠ "" then
      let t2 : Trace := t1 ++ [.resolveImageAsImageSelector portForwarding.ImageSelector]
      match env.resolveImageAsImageSelector portForwarding.ImageSelector with
      | .error err => (t2, .error err)
      | .ok sel =>
        (t2, .ok { options with
                    ImageSelector := options.ImageSelector ++ [sel]
                    WaitingStrategy := time.Second * 2
                    SkipInitContainers := true })
    else
      (t1, .ok { options with
                  WaitingStrategy := time.Second * 2
                  SkipInitContainers := true })

/-! ## `startForwarding`, lines 135-142: the readiness `select` -/

/-- The case of the readiness `select` that is taken. -/
inductive StartSelect where
  | ready
  | failure (err : Option GoError)
  | timeout
  deriving DecidableEq, Repr

/-- The three cases of the `select` in source order, each with the instant at
which it becomes receivable; the timer of `time.After` fires at `deadline`. -/
def startCases (readyAt : Option Nat) (errorAt : Option (Nat × Option GoError))
    (deadline : Nat) : List (Nat × StartSelect) :=
  (match readyAt with
   | some t => [(t, StartSelect.ready)]
   | none => []) ++
  (match errorAt with
   | some (t, err) => [(t, StartSelect.failure err)]
   | none => []) ++
  [(deadline, StartSelect.timeout)]

/-- Go's `select`: it blocks until the earliest instant at which a case is
receivable and takes one of the cases receivable then (`pick` chooses among
several). -/
def selectReadiness (readyAt : Option Nat) (errorAt : Option (Nat × Option GoError))
    (pick : Nat) : StartSelect :=
  let deadline := 20 * time.Second
  let cases := startCases readyAt errorAt deadline
  let first := (cases.map Prod.fst).foldl min deadline
  let receivable := (cases.filter (fun c => c.1 = first)).map Prod.snd
  receivable.getD (pick % receivable.length) StartSelect.timeout

/-- Lines 134-144 and 180, `// Wait till forwarding is ready`: the readiness
`select`, and on readiness the log line and the start of the watcher;
`opened` is the trace so far. -/
def waitReady (env : CallEnv) (log : Logger) (pod : Pod) (ports : List String)
    (opened : Trace) : Trace × Option GoError :=
  match selectReadiness env.readyAt env.errorAt env.pick with
  | .ready =>
    (opened ++
      [.donef log ("Port forwarding started on " ++ strings.Join ports ", " ++
          " (" ++ pod.Namespace ++ "/" ++ pod.Name ++ ")"),
       .goWatcher], none)
  | .failure err => (opened, errors.Wrap err "forward ports")
  | .timeout => (opened, some (.new "Timeout waiting for port forwarding to start"))

/-! ## `startForwarding`, lines 59-143 and 180: the calling goroutine -/

/-- The function `startForwarding` up to the spawning of the watcher: the
trace of the calling goroutine and the returned error.  The parameters `cache`
and `interrupt` are read by the watcher only (see `watcher`). -/
def startForwarding (env : CallEnv) (portForwarding : PortForwardingConfig)
    (log : Logger) : Trace × Option GoError :=
  match buildOptions env portForwarding with
  | (t1, .error err) => (t1, some err)
  | (t1, .ok options) =>
    let t2 : Trace := t1 ++
      [.startWait log "Port-Forwarding: Waiting for containers to start...",
       .selectSinglePod options,
       .stopWait log]
    match env.selectSinglePod options with
    | .error err => (t2, some (.new (env.SelectorErrorPod ++ ": " ++ err.Error)))
    | .ok none => (t2, none)
    | .ok (some pod) =>
      match portMappingsLoop env.portCheck portForwarding.PortMappings with
      | (t3, .error err) => (t2 ++ t3, some err)
      | (t3, .ok (ports, addresses)) =>
        let t4 : Trace := t2 ++ t3 ++ [.newPortForwarder pod ports addresses]
        match env.newPortForwarder pod ports addresses with
        | some err => (t4, some (.new ("Error starting port forwarding: " ++ err.Error)))
        | none =>
          waitReady env log pod ports (t4 ++ [.goForwardPorts])

/-! ## `startForwarding`, lines 144-178: the watcher goroutine -/

/-- The case of the watcher's `select` that is taken: a value received from
`errorChan`, or a receive from `interrupt`. -/
inductive WatchSelect where
  | failure (err : Option GoError)
  | interrupt
  deriving DecidableEq, Repr

/-- A goroutine observed for a bounded number of steps: what it did, and
whether it has returned. -/
structure Run where
  trace : Trace
  returned : Bool
  deriving DecidableEq, Repr

/-- Lines 154-169, the statement `for { .. }`, from restart attempt `i` on;
`envs i` is what the collaborators answer during attempt `i`, and `fuel`
bounds the number of iterations that are observed. -/
def retryLoop (envs : Nat → CallEnv) (cache : CacheConfig)
    (portForwarding : PortForwardingConfig) : Nat → Nat → Run
  | 0, _ => { trace := [], returned := false }
  | fuel + 1, i =>
    let call : Trace := [.callStartForwarding cache portForwarding .discard]
    match startForwarding (envs i) portForwarding .discard with
    | (t, some err) =>
      let rest := retryLoop envs cache portForwarding fuel (i + 1)
      { trace := call ++ t ++
          [.logExecuteHook "portForwarding.restart" portForwarding (some err),
           .errorf .client ("Error restarting port-forwarding: " ++ err.Error),
           .errorf .client "Will try again in 15 seconds",
           .sleep (time.Second * 15)] ++ rest.trace
        returned := rest.returned }
    | (t, none) =>
      { trace := call ++ t ++ [.sleep (time.Second * 3)], returned := true }

/-- Lines 144-178, the body of the watcher goroutine; `ev` is the case its
`select` takes (`none`: neither channel ever becomes receivable). -/
def watcher (envs : Nat → CallEnv) (cache : CacheConfig)
    (portForwarding : PortForwardingConfig) (ev : Option WatchSelect) (fuel : Nat) : Run :=
  match ev with
  | none => { trace := [], returned := false }
  | some (.failure none) => { trace := [], returned := true }
  | some (.failure (some err)) =>
    let loop := retryLoop envs cache portForwarding fuel 0
    { trace :=
        [.pfClose,
         .logExecuteHook "portForwarding.restart" portForwarding (some err)] ++ loop.trace
      returned := loop.returned }
  | some .interrupt =>
    { trace := [.pfClose, .logExecuteHook "portForwarding.stop" portForwarding none]
      returned := true }

/-! ## `startForwarding`, lines 145-177: the watcher's `select` on the shared channel -/

/-- The two cases of the watcher's `select` in source order (the receive from
`errorChan`, the receive from `interrupt`), each with the instant at which it
becomes receivable. -/
def watchCases (errorAt : Option (Nat × Option GoError)) (interruptAt : Option Nat) :
    List (Nat × WatchSelect) :=
  (match errorAt with
   | some (t, err) => [(t, WatchSelect.failure err)]
   | none => []) ++
  (match interruptAt with
   | some t => [(t, WatchSelect.interrupt)]
   | none => [])

/-- Go's `select` without timer: it blocks until the earliest instant at which
a case is receivable and takes one of the cases receivable then (`pick`
chooses among several); with no case ever receivable it blocks for good. -/
def selectWatch (errorAt : Option (Nat × Option GoError)) (interruptAt : Option Nat)
    (pick : Nat) : Option WatchSelect :=
  let cases := watchCases errorAt interruptAt
  match cases.map Prod.fst with
  | [] => none
  | t :: ts =>
    let first := ts.foldl min t
    let receivable := (cases.filter (fun c => c.1 = first)).map Prod.snd
    receivable[pick % receivable.length]?

/-- A Session whose watcher has entered its `select` (state `Watching`):
the arguments of the watcher, the instant at which its own `errorChan` becomes
receivable and the value received then (`none`: never), the tie-break of its
`select`, and what the collaborators answer during its restart attempts. -/
structure Watching where
  cache : CacheConfig
  portForwarding : PortForwardingConfig
  errorAt : Option (Nat × Option GoError)
  pick : Nat
  envs : Nat → CallEnv

/-- What the owner of the `interrupt chan error` given to `StartPortForwarding`
does with it: nothing, `close(interrupt)` at an instant, or `interrupt <- value`
at an instant (`choice` resolves which of the receivers ready then gets the
value). -/
inductive InterruptSignal where
  | never
  | close (instant : Nat)
  | send (instant : Nat) (value : Option GoError) (choice : Nat)
  deriving DecidableEq, Repr

/-- The watchers (by position) that take a receive from `interrupt` when it
can proceed at instant `t`. -/
def receivers (sessions : List Watching) (t : Nat) : List Nat :=
  (List.range sessions.length).filter (fun i =>
    match sessions[i]? with
    | some s => decide (selectWatch s.errorAt (some t) s.pick = some WatchSelect.interrupt)
    | none => false)

/-- Go's channel semantics for the one `interrupt` channel all watchers share:
the instant at which the receive `<-interrupt` of watcher `i` can proceed.  A
closed channel is receivable by every watcher; a value sent on the unbuffered
channel is handed to exactly one of the watchers ready to receive it. -/
def interruptAt : InterruptSignal → List Watching → Nat → Option Nat
  | .never, _, _ => none
  | .close t, _, _ => some t
  | .send t _ choice, sessions, i =>
    if (receivers sessions t)[choice % (receivers sessions t).length]? = some i then some t
    else none

/-- The `generated.Config` behind `serviceClient.config.Generated()`. -/
structure GeneratedConfig where
  Active : CacheConfig
  deriving DecidableEq, Repr

/-- The `config.Config` interface value: `Config()` (of which only `Dev.Ports`
is read) and `Generated()`, each possibly `nil`. -/
structure Config where
  Ports : Option (List PortForwardingConfig)
  Generated : Option GeneratedConfig
  deriving DecidableEq, Repr

/-- The fields of the receiver `serviceClient` read here. -/
structure Client where
  config : Option Config

/-- What the collaborators answer while one spec with port mappings is
started: the results of the two hooks and the answers during the call of
`startForwarding`. -/
structure SpecEnv where
  startHook : Option GoError
  errorHook : GoError → Option GoError
  call : CallEnv

/-- Lines 29-54, the statement `for _, portForwarding := range ..Dev.Ports`;
`n` counts the specs with port mappings met so far, and `envs n` is what the
collaborators answer for the next one. -/
def portsLoop (envs : Nat → SpecEnv) (cache : CacheConfig) :
    List PortForwardingConfig → Nat → Trace × Option GoError
  | [], _ => ([], none)
  | portForwarding :: rest, n =>
    if portForwarding.PortMappings.length = 0 then
      portsLoop envs cache rest n
    else
      let t1 : Trace := [.executeHook "portForwarding.start" portForwarding none]
      match (envs n).startHook with
      | some pluginErr => (t1, some pluginErr)
      | none =>
        let t2 : Trace := t1 ++ [.callStartForwarding cache portForwarding .client]
        match startForwarding (envs n).call portForwarding .client with
        | (t, some err) =>
          let t3 : Trace := t2 ++ t ++
            [.executeHook "portForwarding.error" portForwarding (some err)]
          match (envs n).errorHook err with
          | some pluginErr => (t3, some pluginErr)
          | none => (t3, some err)
        | (t, none) =>
          let (tr, res) := portsLoop envs cache rest (n + 1)
          (t2 ++ t ++ tr, res)

/-- The method `StartPortForwarding`. -/
def StartPortForwarding (serviceClient : Client) (envs : Nat → SpecEnv) :
    Trace × Option GoError :=
  match serviceClient.config with
  | none => ([], some (.new "DevSpace config is not set"))
  | some config =>
    match config.Ports, config.Generated with
    | some ports, some generated => portsLoop envs generated.Active ports 0
    | _, _ => ([], some (.new "DevSpace config is not set"))

/-! ## Vocabulary of the statements -/

/-- The port-pair string of a mapping in the words of the specification:
`decimal(localPort) ++ ":" ++ decimal(remotePort)`, the remote port replaced
by the local one when absent (empty for a mapping without local port). -/
def portPair (m : PortMapping) : String :=
  match m.LocalPort with
  | some lp => strconv.Itoa lp ++ ":" ++ strconv.Itoa (m.RemotePort.getD lp)
  | none => ""

/-- The bind address of a mapping in the words of the specification:
`"localhost"` when the field is empty. -/
def bindAddress (m : PortMapping) : String :=
  if m.BindAddress = "" then "localhost" else m.BindAddress

/-- The probes (and warnings) of a run of mappings, the first at `index`. -/
def probesOf (portCheck : Nat → Int → Bool) : List PortMapping → Nat → Trace
  | [], _ => []
  | m :: rest, index =>
    (match m.LocalPort with
     | some lp => portProbe portCheck index lp
     | none => []) ++ probesOf portCheck rest (index + 1)

/-- The kind of an event: its constructor without the arguments. -/
inductive EventKind where
  | executeHook | logExecuteHook | callStartForwarding | resolveImageName
  | resolveImageAsImageSelector | startWait | stopWait | selectSinglePod | portCheck
  | warnf | donef | errorf | newPortForwarder | goForwardPorts | goWatcher | pfClose | sleep
  deriving DecidableEq, Repr

/-- The kind of an event. -/
def Event.kind : Event → EventKind
  | .executeHook _ _ _ => .executeHook
  | .logExecuteHook _ _ _ => .logExecuteHook
  | .callStartForwarding _ _ _ => .callStartForwarding
  | .resolveImageName _ => .resolveImageName
  | .resolveImageAsImageSelector _ => .resolveImageAsImageSelector
  | .startWait _ _ => .startWait
  | .stopWait _ => .stopWait
  | .selectSinglePod _ => .selectSinglePod
  | .portCheck _ => .portCheck
  | .warnf _ _ => .warnf
  | .donef _ _ => .donef
  | .errorf _ _ => .errorf
  | .newPortForwarder _ _ _ => .newPortForwarder
  | .goForwardPorts => .goForwardPorts
  | .goWatcher => .goWatcher
  | .pfClose => .pfClose
  | .sleep _ => .sleep

/-- Number of events of a kind in a trace. -/
def countKind (k : EventKind) (t : Trace) : Nat :=
  t.countP (fun e => e.kind = k)

/-- Whether an event is the emission (of either flavour) of the hook `name`. -/
def Event.isHook (name : String) : Event → Bool
  | .executeHook n _ _ => n = name
  | .logExecuteHook n _ _ => n = name
  | _ => false

/-- Number of emissions of the hook `name` in a trace. -/
def countHook (name : String) (t : Trace) : Nat :=
  t.countP (fun e => e.isHook name)

/-- Number of occurrences of one event in a trace. -/
def countEvent (e : Event) (t : Trace) : Nat :=
  t.countP (fun x => x = e)

/-- What the retry loop of the watcher does in an iteration whose restart
attempt `i` fails: the call, what the call does, the restart hook, the two
error lines and the sleep of 15 seconds. -/
def failedIterationTrace (envs : Nat → CallEnv) (cache : CacheConfig)
    (spec : PortForwardingConfig) (i : Nat) : Trace :=
  [.callStartForwarding cache spec .discard] ++
    (startForwarding (envs i) spec .discard).1 ++
    (match (startForwarding (envs i) spec .discard).2 with
     | some err =>
       [.logExecuteHook "portForwarding.restart" spec (some err),
        .errorf .client ("Error restarting port-forwarding: " ++ err.Error),
        .errorf .client "Will try again in 15 seconds",
        .sleep (time.Second * 15)]
     | none => [])

/-- The specs `StartPortForwarding` does not skip: those with at least one
port mapping, in configuration order. -/
def activeSpecs (ports : List PortForwardingConfig) : List PortForwardingConfig :=
  ports.filter (fun s => decide (s.PortMappings.length ≠ 0))

/-- The start hook and the call of `startForwarding` both succeed for `spec`,
met as spec number `j` among those with port mappings. -/
def specStarted (envs : Nat → SpecEnv) (j : Nat) (spec : PortForwardingConfig) : Prop :=
  (envs j).startHook = none ∧ (startForwarding (envs j).call spec .client).2 = none

/-- What `StartPortForwarding` does for spec number `j` up to the return of
`startForwarding`: the start hook, the call, and what the call does. -/
def startedTrace (envs : Nat → SpecEnv) (cache : CacheConfig) (j : Nat)
    (spec : PortForwardingConfig) : Trace :=
  [.executeHook "portForwarding.start" spec none,
   .callStartForwarding cache spec .client] ++
    (startForwarding (envs j).call spec .client).1

/-- The `startedTrace` of a run of specs, the first being spec number `n`. -/
def startedPrefix (envs : Nat → SpecEnv) (cache : CacheConfig) (n : Nat)
    (specs : List PortForwardingConfig) : Trace :=
  ((specs.enumFrom n).map (fun p => startedTrace envs cache p.1 p.2)).flatten

/-- The trace of `startForwarding` up to and including the call of the
target selector. -/
def resolvedTrace (env : CallEnv) (spec : PortForwardingConfig) (log : Logger)
    (options : Options) : Trace :=
  (buildOptions env spec).1 ++
    [.startWait log "Port-Forwarding: Waiting for containers to start...",
     .selectSinglePod options,
     .stopWait log]

/-- The trace of `startForwarding` up to and including the start of the
goroutine that runs `pf.ForwardPorts`. -/
def openedTrace (env : CallEnv) (spec : PortForwardingConfig) (log : Logger)
    (options : Options) (pod : Pod) (ports addresses : List String) : Trace :=
  resolvedTrace env spec log options ++
    (portMappingsLoop env.portCheck spec.PortMappings).1 ++
    [.newPortForwarder pod ports addresses, .goForwardPorts]

/-! ## Sample inputs -/

/-- Two mappings with local ports: one with defaults, one fully given. -/
def sampleMappings : List PortMapping :=
  [{ LocalPort := some 8080, RemotePort := none, BindAddress := "" },
   { LocalPort := some 3000, RemotePort := some 80, BindAddress := "0.0.0.0" }]

/-- Three mappings, the second and third without local port. -/
def brokenMappings : List PortMapping :=
  [{ LocalPort := some 8080, RemotePort := none, BindAddress := "" },
   { LocalPort := none, RemotePort := some 80, BindAddress := "" },
   { LocalPort := none, RemotePort := none, BindAddress := "" }]

/-- A spec with `sampleMappings`. -/
def sampleSpec : PortForwardingConfig :=
  { ImageName := "", ImageSelector := "", LabelSelector := [("app", "web")],
    Namespace := "dev", PortMappings := sampleMappings }

/-- A spec with `brokenMappings`. -/
def brokenSpec : PortForwardingConfig :=
  { ImageName := "", ImageSelector := "", LabelSelector := [("app", "web")],
    Namespace := "dev", PortMappings := brokenMappings }

/-- The options `startForwarding` builds for `sampleSpec` and `brokenSpec`. -/
def sampleOptions : Options :=
  { LabelSelector := [("app", "web")], Namespace := "dev", ContainerName := "", Pod := "",
    AllowPick := false, ImageSelector := [], WaitingStrategy := 2000000000,
    SkipInitContainers := true }

/-- The target of the sample environments. -/
def samplePod : Pod := { Namespace := "dev", Name := "T1" }

/-- Collaborators that resolve the target `T1`, open the channel and report
readiness after 100 ms. -/
def readyEnv : CallEnv :=
  { SelectorErrorPod := "Error selecting pod"
    resolveImageName := fun _ => .ok none
    resolveImageAsImageSelector := fun s => .ok { Image := s }
    selectSinglePod := fun _ => .ok (some samplePod)
    portCheck := fun _ _ => true
    newPortForwarder := fun _ _ _ => none
    readyAt := some 100000000
    errorAt := none
    pick := 0 }

/-- Collaborators whose target selector finds no target. -/
def noTargetEnv : CallEnv :=
  { readyEnv with selectSinglePod := fun _ => .ok none }

/-- Collaborators whose target selector fails. -/
def selectorErrorEnv : CallEnv :=
  { readyEnv with selectSinglePod := fun _ => .error (.new "timeout") }

/-- Restart attempts of which the first fails in the target selector and the
later ones succeed. -/
def retryEnvs (i : Nat) : CallEnv :=
  if i = 0 then selectorErrorEnv else readyEnv

/-- The failure a watcher receives in the samples. -/
def sampleFailure : GoError := .new "lost connection to pod"

/-- A spec without port mappings. -/
def emptySpec : PortForwardingConfig :=
  { ImageName := "", ImageSelector := "", LabelSelector := [], Namespace := "other",
    PortMappings := [] }

/-- Collaborators for `StartPortForwarding`: both hooks succeed, the call of
`startForwarding` for spec number 1 fails in the target selector. -/
def orchestratorEnvs (j : Nat) : SpecEnv :=
  { startHook := none
    errorHook := fun _ => none
    call := if j = 1 then selectorErrorEnv else readyEnv }

/-- A client whose configuration lists the given specs. -/
def clientOf (ports : List PortForwardingConfig) : Client :=
  { config := some { Ports := some ports, Generated := some { Active := { id := 0 } } } }

theorem portMappingsFrom_ok (portCheck : Nat → Int → Bool) :
    ∀ (rest : List PortMapping) (index : Nat) (P A : List String) (T : Trace),
      (∀ m ∈ rest, m.LocalPort ≠ none) → P.length = index → A.length = index →
      (portMappingsFrom portCheck rest index
          { ports := P ++ List.replicate rest.length ""
            addresses := A ++ List.replicate rest.length ""
            trace := T }).2
        = .ok (P ++ rest.map portPair, A ++ rest.map bindAddress) := by
  intro rest
  induction rest with
  | nil => intro index P A T _ _ _; simp [portMappingsFrom]
  | cons value rest ih =>
    intro index P A T h hP hA
    have hv : value.LocalPort ≠ none := h value (List.mem_cons_self _ _)
    obtain ⟨lp, hlp⟩ := Option.ne_none_iff_exists'.mp hv
    have hrest : ∀ m ∈ rest, m.LocalPort ≠ none :=
      fun m hm => h m (List.mem_cons_of_mem _ hm)
    have hpair : portPair value =
        strconv.Itoa lp ++ ":" ++
          (match value.RemotePort with
           | some rp => strconv.Itoa rp
           | none => strconv.Itoa lp) := by
      unfold portPair
      rw [hlp]
      cases value.RemotePort <;> rfl
    have key := ih (index + 1) (P ++ [portPair value]) (A ++ [bindAddress value])
      (T ++ portProbe portCheck index lp) hrest (by simp [hP]) (by simp [hA])
    simp only [portMappingsFrom, hlp, portMappingBody]
    have e1 : (P ++ List.replicate (value :: rest).length "").set index
        (strconv.Itoa lp ++ ":" ++
          (match value.RemotePort with
           | some rp => strconv.Itoa rp
           | none => strconv.Itoa lp))
        = (P ++ [portPair value]) ++ List.replicate rest.length "" := by
      rw [List.set_append_right _ _ (by omega), hpair]
      simp [hP, List.replicate_succ]
    have e2 : (if value.BindAddress = "" then
          (A ++ List.replicate (value :: rest).length "").set index "localhost"
        else (A ++ List.replicate (value :: rest).length "").set index value.BindAddress)
        = (A ++ [bindAddress value]) ++ List.replicate rest.length "" := by
      unfold bindAddress
      split <;> (rw [List.set_append_right _ _ (by omega)]; simp [hA, List.replicate_succ])
    rw [e1, e2, key]
    simp

theorem portMappingsFrom_error (portCheck : Nat → Int → Bool) :
    ∀ (rest : List PortMapping) (index : Nat) (s : LoopState) (i : Nat) (m : PortMapping),
      rest[i]? = some m → m.LocalPort = none →
      (∀ j m', j < i → rest[j]? = some m' → m'.LocalPort ≠ none) →
      (portMappingsFrom portCheck rest index s).2
        = .error (.new ("port is not defined in portmapping " ++ toString (index + i))) := by
  intro rest
  induction rest with
  | nil => intro index s i m h; simp at h
  | cons value rest ih =>
    intro index s i m hi hm hlt
    cases i with
    | zero =>
      simp at hi
      subst hi
      simp [portMappingsFrom, hm]
    | succ i =>
      have hv : value.LocalPort ≠ none := hlt 0 value (by omega) (by simp)
      obtain ⟨lp, hlp⟩ := Option.ne_none_iff_exists'.mp hv
      simp only [portMappingsFrom, hlp]
      have := ih (index + 1) (portMappingBody portCheck index lp value s) i m
        (by simpa using hi) hm
        (fun j m' hj hj' => hlt (j + 1) m' (by omega) (by simpa using hj'))
      rw [this]
      congr 4
      omega

theorem portMappingsFrom_trace (portCheck : Nat → Int → Bool) :
    ∀ (rest : List PortMapping) (index : Nat) (s : LoopState),
      (portMappingsFrom portCheck rest index s).1
        = s.trace ++
            probesOf portCheck (rest.takeWhile (fun m => m.LocalPort.isSome)) index := by
  intro rest
  induction rest with
  | nil => intro index s; simp [portMappingsFrom, probesOf]
  | cons value rest ih =>
    intro index s
    cases hlp : value.LocalPort with
    | none => simp [portMappingsFrom, hlp, List.takeWhile, probesOf]
    | some lp =>
      simp [portMappingsFrom, hlp, List.takeWhile, probesOf, ih, portMappingBody]

theorem portMappingsFrom_error_iff (portCheck : Nat → Int → Bool) :
    ∀ (rest : List PortMapping) (index : Nat) (s : LoopState),
      (∃ err, (portMappingsFrom portCheck rest index s).2 = .error err) ↔
        ∃ m ∈ rest, m.LocalPort = none := by
  intro rest
  induction rest with
  | nil => intro index s; simp [portMappingsFrom]
  | cons value rest ih =>
    intro index s
    cases hlp : value.LocalPort with
    | none =>
      simp only [portMappingsFrom, hlp]
      exact ⟨fun _ => ⟨value, List.mem_cons_self _ _, hlp⟩, fun _ => ⟨_, rfl⟩⟩
    | some lp =>
      simp only [portMappingsFrom, hlp, ih]
      constructor
      · rintro ⟨m, hm, hn⟩
        exact ⟨m, List.mem_cons_of_mem _ hm, hn⟩
      · rintro ⟨m, hm, hn⟩
        rcases List.mem_cons.mp hm with rfl | hm
        · rw [hlp] at hn; cases hn
        · exact ⟨m, hm, hn⟩

/-- C1: when every mapping has a local port, the port-mapping loop of
`startForwarding` ends with two slices as long as the mapping list, in input
order: `ports[i]` is `decimal(localPort) : decimal(remotePort)` with the remote
port replaced by the local one when absent, `addresses[i]` is the bind address
or `"localhost"` when that is empty; the result is the same for every answer of
the port probe, and it is what `startForwarding` hands to `NewPortForwarder`
once a target was resolved. -/
theorem portMappingsLoop_output (portCheck portCheck' : Nat → Int → Bool)
    (mappings : List PortMapping) (h : ∀ m ∈ mappings, m.LocalPort ≠ none) :
    ∃ ports addresses,
      (portMappingsLoop portCheck mappings).2 = .ok (ports, addresses) ∧
      ports.length = mappings.length ∧ addresses.length = mappings.length ∧
      (∀ (i : Nat) (m : PortMapping), mappings[i]? = some m → ∃ lp, m.LocalPort = some lp ∧
        ports[i]? = some (strconv.Itoa lp ++ ":" ++ strconv.Itoa (m.RemotePort.getD lp)) ∧
        addresses[i]? = some (if m.BindAddress = "" then "localhost" else m.BindAddress)) ∧
      (portMappingsLoop portCheck' mappings).2 = .ok (ports, addresses) ∧
      (∀ (env : CallEnv) (spec : PortForwardingConfig) (log : Logger) (t : Trace)
          (options : Options) (pod : Pod),
        spec.PortMappings = mappings → env.portCheck = portCheck →
        buildOptions env spec = (t, .ok options) →
        env.selectSinglePod options = .ok (some pod) →
        Event.newPortForwarder pod ports addresses ∈ (startForwarding env spec log).1) := by
  have hok : ∀ pc, (portMappingsLoop pc mappings).2
      = .ok (mappings.map portPair, mappings.map bindAddress) := by
    intro pc
    have := portMappingsFrom_ok pc mappings 0 [] [] [] h rfl rfl
    simpa [portMappingsLoop] using this
  refine ⟨mappings.map portPair, mappings.map bindAddress, hok _, by simp, by simp, ?_,
    hok _, ?_⟩
  · intro i m hi
    obtain ⟨lp, hlp⟩ := Option.ne_none_iff_exists'.mp (h m (List.getElem?_mem hi))
    refine ⟨lp, hlp, ?_, ?_⟩
    · simp [hi, portPair, hlp]
    · simp [hi, bindAddress]
  · intro env spec log t options pod hspec hpc hopt hpod
    have hloop : portMappingsLoop env.portCheck spec.PortMappings
        = ((portMappingsLoop env.portCheck spec.PortMappings).1,
            .ok (mappings.map portPair, mappings.map bindAddress)) := by
      rw [← hok env.portCheck, hspec]
    unfold startForwarding
    rw [hopt]
    simp only [hpod]
    rw [hloop]
    simp only []
    cases env.newPortForwarder pod (mappings.map portPair) (mappings.map bindAddress) with
    | some err => simp
    | none =>
      simp only []
      unfold waitReady
      cases selectReadiness env.readyAt env.errorAt env.pick <;> simp

/-- C1, witness: the theorem at `sampleMappings`. -/
theorem portMappingsLoop_output_witness :
    (∀ m ∈ sampleMappings, m.LocalPort ≠ none) ∧
    ∃ ports addresses,
      (portMappingsLoop (fun _ _ => false) sampleMappings).2 = .ok (ports, addresses) ∧
      ports.length = sampleMappings.length ∧ addresses.length = sampleMappings.length ∧
      (∀ (i : Nat) (m : PortMapping), sampleMappings[i]? = some m → ∃ lp, m.LocalPort = some lp ∧
        ports[i]? = some (strconv.Itoa lp ++ ":" ++ strconv.Itoa (m.RemotePort.getD lp)) ∧
        addresses[i]? = some (if m.BindAddress = "" then "localhost" else m.BindAddress)) ∧
      (portMappingsLoop (fun _ _ => true) sampleMappings).2 = .ok (ports, addresses) ∧
      (∀ (env : CallEnv) (spec : PortForwardingConfig) (log : Logger) (t : Trace)
          (options : Options) (pod : Pod),
        spec.PortMappings = sampleMappings → env.portCheck = (fun _ _ => false) →
        buildOptions env spec = (t, .ok options) →
        env.selectSinglePod options = .ok (some pod) →
        Event.newPortForwarder pod ports addresses ∈ (startForwarding env spec log).1) :=
  ⟨by decide,
    portMappingsLoop_output (fun _ _ => false) (fun _ _ => true) sampleMappings (by decide)⟩

/-- C2: the port-mapping loop of `startForwarding` fails exactly when some
mapping has no local port; the error then names the smallest index whose
mapping lacks it (`port is not defined in portmapping i`), and with a local
port on every mapping the loop does not fail. -/
theorem portMappingsLoop_error (portCheck : Nat → Int → Bool)
    (mappings : List PortMapping) :
    ((∃ err, (portMappingsLoop portCheck mappings).2 = .error err) ↔
        ∃ m ∈ mappings, m.LocalPort = none) ∧
    (∀ (i : Nat) (m : PortMapping), mappings[i]? = some m → m.LocalPort = none →
      (∀ (j : Nat) (m' : PortMapping), j < i → mappings[j]? = some m' →
        m'.LocalPort ≠ none) →
      (portMappingsLoop portCheck mappings).2
        = .error (.new ("port is not defined in portmapping " ++ toString i))) ∧
    ((∀ m ∈ mappings, m.LocalPort ≠ none) →
      ∃ r, (portMappingsLoop portCheck mappings).2 = .ok r) := by
  refine ⟨portMappingsFrom_error_iff portCheck mappings 0 _, ?_, ?_⟩
  · intro i m hi hm hlt
    have := portMappingsFrom_error portCheck mappings 0
      { ports := List.replicate mappings.length ""
        addresses := List.replicate mappings.length ""
        trace := [] } i m hi hm hlt
    simpa [portMappingsLoop] using this
  · intro h
    have := portMappingsFrom_ok portCheck mappings 0 [] [] [] h rfl rfl
    exact ⟨_, by simpa [portMappingsLoop] using this⟩

/-- C2, witness: at `brokenMappings` the first mapping without local port has
index 1. -/
theorem portMappingsLoop_error_witness :
    (portMappingsLoop (fun _ _ => true) brokenMappings).2
      = .error (.new ("port is not defined in portmapping " ++ toString 1)) :=
  (portMappingsLoop_error (fun _ _ => true) brokenMappings).2.1 1
    { LocalPort := none, RemotePort := some 80, BindAddress := "" } (by decide) rfl
    (by
      intro j m' hj hm
      obtain rfl : j = 0 := by omega
      simp [brokenMappings] at hm
      subst hm
      simp)

/-! ## The readiness `select` -/

theorem selectReadiness_ready (t : Nat) (errorAt : Option (Nat × Option GoError))
    (pick : Nat) (ht : t < 20 * time.Second)
    (he : ∀ te e, errorAt = some (te, e) → t < te) :
    selectReadiness (some t) errorAt pick = .ready := by
  rcases errorAt with _ | ⟨te, e⟩
  · have h1 : min (20 * time.Second) t = t := by omega
    have h2 : ¬ (20 * time.Second = t) := by omega
    simp [selectReadiness, startCases, h1, h2, ht.le, Nat.mod_one]
  · have hte := he te e rfl
    have h1 : min (20 * time.Second) t = t := by omega
    have h2 : min t te = t := by omega
    have h3 : ¬ (te = t) := by omega
    have h4 : ¬ (20 * time.Second = t) := by omega
    simp [selectReadiness, startCases, h1, h2, h3, h4, ht.le, Nat.mod_one]

theorem selectReadiness_failure (readyAt : Option Nat) (te : Nat) (e : Option GoError)
    (pick : Nat) (hte : te < 20 * time.Second)
    (hr : ∀ t, readyAt = some t → te < t) :
    selectReadiness readyAt (some (te, e)) pick = .failure e := by
  rcases readyAt with _ | t
  · have h1 : min (20 * time.Second) te = te := by omega
    have h2 : ¬ (20 * time.Second = te) := by omega
    simp [selectReadiness, startCases, h1, h2, hte.le, Nat.mod_one]
  · have ht := hr t rfl
    have h2 : min (min (20 * time.Second) t) te = te := by omega
    have h3 : ¬ (t = te) := by omega
    have h4 : ¬ (20 * time.Second = te) := by omega
    simp [selectReadiness, startCases, h2, h3, h4, hte.le, Nat.mod_one]

theorem selectReadiness_timeout (readyAt : Option Nat)
    (errorAt : Option (Nat × Option GoError)) (pick : Nat)
    (hr : ∀ t, readyAt = some t → 20 * time.Second < t)
    (he : ∀ te e, errorAt = some (te, e) → 20 * time.Second < te) :
    selectReadiness readyAt errorAt pick = .timeout := by
  rcases readyAt with _ | t <;> rcases errorAt with _ | ⟨te, e⟩
  · simp [selectReadiness, startCases]
  · have hte := he te e rfl
    have h1 : min (20 * time.Second) te = 20 * time.Second := by omega
    have h2 : ¬ (te = 20 * time.Second) := by omega
    simp [selectReadiness, startCases, h1, h2]
  · have ht := hr t rfl
    have h1 : min (20 * time.Second) t = 20 * time.Second := by omega
    have h2 : ¬ (t = 20 * time.Second) := by omega
    simp [selectReadiness, startCases, h1, h2]
  · have ht := hr t rfl
    have hte := he te e rfl
    have h1 : min (20 * time.Second) t = 20 * time.Second := by omega
    have h2 : min (20 * time.Second) te = 20 * time.Second := by omega
    have h3 : ¬ (t = 20 * time.Second) := by omega
    have h4 : ¬ (te = 20 * time.Second) := by omega
    simp [selectReadiness, startCases, h1, h2, h3, h4]

/-! ## Counting events -/

@[simp] theorem countKind_nil (k : EventKind) : countKind k [] = 0 := rfl

@[simp] theorem countKind_append (k : EventKind) (s t : Trace) :
    countKind k (s ++ t) = countKind k s + countKind k t := by
  simp [countKind]

@[simp] theorem countKind_cons (k : EventKind) (e : Event) (t : Trace) :
    countKind k (e :: t) = countKind k t + if e.kind = k then 1 else 0 := by
  simp [countKind, List.countP_cons]

@[simp] theorem countHook_nil (name : String) : countHook name [] = 0 := rfl

@[simp] theorem countHook_append (name : String) (s t : Trace) :
    countHook name (s ++ t) = countHook name s + countHook name t := by
  simp [countHook]

@[simp] theorem countHook_cons (name : String) (e : Event) (t : Trace) :
    countHook name (e :: t) = countHook name t + if e.isHook name = true then 1 else 0 := by
  simp [countHook, List.countP_cons]

theorem countHook_le_countKind (name : String) (t : Trace) :
    countHook name t ≤ countKind .executeHook t + countKind .logExecuteHook t := by
  induction t with
  | nil => simp
  | cons e t ih =>
    cases e <;> simp [Event.kind, Event.isHook] <;> (try split) <;> omega

theorem countKind_buildOptions (env : CallEnv) (spec : PortForwardingConfig)
    (k : EventKind) (h1 : k ≠ .resolveImageName) (h2 : k ≠ .resolveImageAsImageSelector) :
    countKind k (buildOptions env spec).1 = 0 := by
  unfold buildOptions
  have h1' : ¬ EventKind.resolveImageName = k := fun h => h1 h.symm
  have h2' : ¬ EventKind.resolveImageAsImageSelector = k := fun h => h2 h.symm
  cases env.resolveImageName spec.ImageName with
  | error err => simp [Event.kind, h1']
  | ok sel =>
    by_cases hs : spec.ImageSelector = ""
    · simp [hs, Event.kind, h1']
    · cases env.resolveImageAsImageSelector spec.ImageSelector <;>
        simp [hs, Event.kind, h1', h2']

theorem countKind_probesOf (portCheck : Nat → Int → Bool) (k : EventKind)
    (h1 : k ≠ .portCheck) (h2 : k ≠ .warnf) :
    ∀ (ms : List PortMapping) (index : Nat), countKind k (probesOf portCheck ms index) = 0 := by
  have h1' : ¬ EventKind.portCheck = k := fun h => h1 h.symm
  have h2' : ¬ EventKind.warnf = k := fun h => h2 h.symm
  intro ms
  induction ms with
  | nil => intro index; simp [probesOf]
  | cons m ms ih =>
    intro index
    cases hlp : m.LocalPort with
    | none => simp [probesOf, hlp, ih]
    | some lp =>
      by_cases hc : portCheck index lp = false <;>
        simp [probesOf, hlp, ih, portProbe, hc, Event.kind, h1', h2']

theorem portMappingsLoop_trace (portCheck : Nat → Int → Bool) (ms : List PortMapping) :
    (portMappingsLoop portCheck ms).1
      = probesOf portCheck (ms.takeWhile (fun m => m.LocalPort.isSome)) 0 := by
  simp [portMappingsLoop, portMappingsFrom_trace]

theorem countKind_portMappingsLoop (portCheck : Nat → Int → Bool) (k : EventKind)
    (h1 : k ≠ .portCheck) (h2 : k ≠ .warnf) (ms : List PortMapping) :
    countKind k (portMappingsLoop portCheck ms).1 = 0 := by
  rw [portMappingsLoop_trace]
  exact countKind_probesOf portCheck k h1 h2 _ _

theorem countKind_portCheck_probesOf (portCheck : Nat → Int → Bool) :
    ∀ (ms : List PortMapping) (index : Nat), (∀ m ∈ ms, m.LocalPort ≠ none) →
      countKind .portCheck (probesOf portCheck ms index) = ms.length := by
  intro ms
  induction ms with
  | nil => intro index _; simp [probesOf]
  | cons m ms ih =>
    intro index h
    obtain ⟨lp, hlp⟩ := Option.ne_none_iff_exists'.mp (h m (List.mem_cons_self _ _))
    have := ih (index + 1) (fun m hm => h m (List.mem_cons_of_mem _ hm))
    by_cases hc : portCheck index lp = false <;>
      simp [probesOf, hlp, this, portProbe, hc, Event.kind]

/-! ## The paths through `startForwarding` -/

theorem startForwarding_shape (env : CallEnv) (spec : PortForwardingConfig) (log : Logger) :
    (∃ err, (buildOptions env spec).2 = .error err ∧
      startForwarding env spec log = ((buildOptions env spec).1, some err)) ∨
    (∃ options, (buildOptions env spec).2 = .ok options ∧
      ((∃ err, env.selectSinglePod options = .error err ∧
          startForwarding env spec log =
            (resolvedTrace env spec log options,
              some (.new (env.SelectorErrorPod ++ ": " ++ err.Error)))) ∨
       (env.selectSinglePod options = .ok none ∧
          startForwarding env spec log = (resolvedTrace env spec log options, none)) ∨
       (∃ pod, env.selectSinglePod options = .ok (some pod) ∧
          ((∃ err, (portMappingsLoop env.portCheck spec.PortMappings).2 = .error err ∧
              startForwarding env spec log =
                (resolvedTrace env spec log options ++
                  (portMappingsLoop env.portCheck spec.PortMappings).1, some err)) ∨
           (∃ ports addresses,
              (portMappingsLoop env.portCheck spec.PortMappings).2 = .ok (ports, addresses) ∧
              ((∃ err, env.newPortForwarder pod ports addresses = some err ∧
                  startForwarding env spec log =
                    (resolvedTrace env spec log options ++
                      (portMappingsLoop env.portCheck spec.PortMappings).1 ++
                      [.newPortForwarder pod ports addresses],
                     some (.new ("Error starting port forwarding: " ++ err.Error)))) ∨
               (env.newPortForwarder pod ports addresses = none ∧
                  startForwarding env spec log =
                    waitReady env log pod ports
                      (openedTrace env spec log options pod ports addresses)))))))) := by
  unfold startForwarding resolvedTrace openedTrace resolvedTrace
  rcases buildOptions env spec with ⟨t1, err | options⟩
  · exact Or.inl ⟨err, rfl, rfl⟩
  · refine Or.inr ⟨options, rfl, ?_⟩
    simp only []
    rcases env.selectSinglePod options with err | _ | pod
    · exact Or.inl ⟨err, rfl, rfl⟩
    · exact Or.inr (Or.inl ⟨rfl, rfl⟩)
    · refine Or.inr (Or.inr ⟨pod, rfl, ?_⟩)
      simp only []
      rcases portMappingsLoop env.portCheck spec.PortMappings with ⟨t3, err | ⟨ports, addresses⟩⟩
      · exact Or.inl ⟨err, rfl, rfl⟩
      · refine Or.inr ⟨ports, addresses, rfl, ?_⟩
        simp only []
        rcases env.newPortForwarder pod ports addresses with _ | err
        · refine Or.inr ⟨rfl, ?_⟩
          simp only [List.append_assoc, List.singleton_append, List.cons_append,
            List.nil_append]
        · exact Or.inl ⟨err, rfl, rfl⟩

theorem buildOptions_trace_ok (env : CallEnv) (spec : PortForwardingConfig)
    (options : Options) (hopt : (buildOptions env spec).2 = .ok options) :
    (buildOptions env spec).1 =
      [.resolveImageName spec.ImageName] ++
        (if spec.ImageSelector ≠ "" then
          [.resolveImageAsImageSelector spec.ImageSelector] else []) := by
  unfold buildOptions at hopt ⊢
  cases h1 : env.resolveImageName spec.ImageName with
  | error err => simp [h1] at hopt
  | ok sel =>
    by_cases hs : spec.ImageSelector = ""
    · simp [hs]
    · cases h2 : env.resolveImageAsImageSelector spec.ImageSelector with
      | error err => simp [h1, h2, hs] at hopt
      | ok sel2 => simp [hs]

theorem countKind_resolvedTrace (env : CallEnv) (spec : PortForwardingConfig) (log : Logger)
    (options : Options) (k : EventKind) (h1 : k ≠ .resolveImageName)
    (h2 : k ≠ .resolveImageAsImageSelector) (h3 : k ≠ .startWait) (h4 : k ≠ .stopWait) :
    countKind k (resolvedTrace env spec log options)
      = if k = .selectSinglePod then 1 else 0 := by
  have h3' : ¬ EventKind.startWait = k := fun h => h3 h.symm
  have h4' : ¬ EventKind.stopWait = k := fun h => h4 h.symm
  simp [resolvedTrace, countKind_buildOptions env spec k h1 h2, Event.kind, h3', h4', eq_comm]

theorem countKind_openedTrace (env : CallEnv) (spec : PortForwardingConfig) (log : Logger)
    (options : Options) (pod : Pod) (ports addresses : List String) (k : EventKind)
    (h : k = .executeHook ∨ k = .logExecuteHook ∨ k = .callStartForwarding ∨ k = .errorf ∨
      k = .pfClose ∨ k = .sleep ∨ k = .donef ∨ k = .goWatcher) :
    countKind k (openedTrace env spec log options pod ports addresses) = 0 := by
  rcases h with rfl | rfl | rfl | rfl | rfl | rfl | rfl | rfl <;>
    simp [openedTrace, countKind_resolvedTrace, countKind_portMappingsLoop, Event.kind]

theorem countKind_startForwarding (env : CallEnv) (spec : PortForwardingConfig)
    (log : Logger) (k : EventKind)
    (h : k = .executeHook ∨ k = .logExecuteHook ∨ k = .callStartForwarding ∨ k = .errorf ∨
      k = .pfClose ∨ k = .sleep) :
    countKind k (startForwarding env spec log).1 = 0 := by
  have hopen : ∀ options pod ports addresses,
      countKind k (openedTrace env spec log options pod ports addresses) = 0 := by
    intro options pod ports addresses
    apply countKind_openedTrace
    rcases h with h | h | h | h | h | h <;> simp [h]
  rcases startForwarding_shape env spec log with
    ⟨err, _, heq⟩ | ⟨options, _, ⟨err, _, heq⟩ | ⟨_, heq⟩ | ⟨pod, _, ⟨err, _, heq⟩ |
      ⟨ports, addresses, _, ⟨err, _, heq⟩ | ⟨_, heq⟩⟩⟩⟩ <;> rw [heq]
  · rcases h with rfl | rfl | rfl | rfl | rfl | rfl <;>
      simp [countKind_buildOptions]
  · rcases h with rfl | rfl | rfl | rfl | rfl | rfl <;>
      simp [countKind_resolvedTrace]
  · rcases h with rfl | rfl | rfl | rfl | rfl | rfl <;>
      simp [countKind_resolvedTrace]
  · rcases h with rfl | rfl | rfl | rfl | rfl | rfl <;>
      simp [countKind_resolvedTrace, countKind_portMappingsLoop]
  · rcases h with rfl | rfl | rfl | rfl | rfl | rfl <;>
      simp [countKind_resolvedTrace, countKind_portMappingsLoop, Event.kind]
  · unfold waitReady
    have := hopen options pod ports addresses
    split <;> rcases h with rfl | rfl | rfl | rfl | rfl | rfl <;>
      simp [this, Event.kind]

theorem countHook_startForwarding (env : CallEnv) (spec : PortForwardingConfig)
    (log : Logger) (name : String) :
    countHook name (startForwarding env spec log).1 = 0 := by
  have h := countHook_le_countKind name (startForwarding env spec log).1
  rw [countKind_startForwarding env spec log .executeHook (by simp),
    countKind_startForwarding env spec log .logExecuteHook (by simp)] at h
  omega

theorem countKind_goWatcher_of_error (env : CallEnv) (spec : PortForwardingConfig)
    (log : Logger) (h : (startForwarding env spec log).2 ≠ none) :
    countKind .goWatcher (startForwarding env spec log).1 = 0 := by
  rcases startForwarding_shape env spec log with
    ⟨err, _, heq⟩ | ⟨options, _, ⟨err, _, heq⟩ | ⟨_, heq⟩ | ⟨pod, _, ⟨err, _, heq⟩ |
      ⟨ports, addresses, _, ⟨err, _, heq⟩ | ⟨_, heq⟩⟩⟩⟩ <;> rw [heq] at h ⊢
  · simp [countKind_buildOptions]
  · simp [countKind_resolvedTrace]
  · simp [countKind_resolvedTrace]
  · simp [countKind_resolvedTrace, countKind_portMappingsLoop]
  · simp [countKind_resolvedTrace, countKind_portMappingsLoop, Event.kind]
  · unfold waitReady at h ⊢
    have := countKind_openedTrace env spec log options pod ports addresses .goWatcher
      (by simp)
    split <;> simp_all

theorem takeWhile_eq_take_of_first_missing :
    ∀ (ms : List PortMapping) (i : Nat) (m : PortMapping),
      ms[i]? = some m → m.LocalPort = none →
      (∀ (j : Nat) (m' : PortMapping), j < i → ms[j]? = some m' → m'.LocalPort ≠ none) →
      ms.takeWhile (fun m => m.LocalPort.isSome) = ms.take i ∧
        ∀ m' ∈ ms.take i, m'.LocalPort ≠ none := by
  intro ms
  induction ms with
  | nil => intro i m h; simp at h
  | cons v ms ih =>
    intro i m hi hm hlt
    cases i with
    | zero =>
      simp at hi
      subst hi
      simp [List.takeWhile, hm]
    | succ i =>
      have hv : v.LocalPort ≠ none := hlt 0 v (by omega) (by simp)
      obtain ⟨lp, hlp⟩ := Option.ne_none_iff_exists'.mp hv
      have := ih i m (by simpa using hi) hm
        (fun j m' hj hj' => hlt (j + 1) m' (by omega) (by simpa using hj'))
      refine ⟨by simp [List.takeWhile, hlp, this.1], ?_⟩
      intro m' hm'
      simp only [List.take_succ_cons, List.mem_cons] at hm'
      rcases hm' with rfl | hm'
      · exact hv
      · exact this.2 m' hm'

theorem startForwarding_of_noTarget (env : CallEnv) (spec : PortForwardingConfig)
    (log : Logger) (options : Options)
    (hopt : (buildOptions env spec).2 = .ok options)
    (hpod : env.selectSinglePod options = .ok none) :
    startForwarding env spec log = (resolvedTrace env spec log options, none) := by
  unfold startForwarding resolvedTrace
  rcases hb : buildOptions env spec with ⟨t1, r⟩
  rw [hb] at hopt
  simp only at hopt
  subst hopt
  simp only [hpod]

theorem startForwarding_of_loop_error (env : CallEnv) (spec : PortForwardingConfig)
    (log : Logger) (options : Options) (pod : Pod) (err : GoError)
    (hopt : (buildOptions env spec).2 = .ok options)
    (hpod : env.selectSinglePod options = .ok (some pod))
    (hmap : (portMappingsLoop env.portCheck spec.PortMappings).2 = .error err) :
    startForwarding env spec log =
      (resolvedTrace env spec log options ++
        (portMappingsLoop env.portCheck spec.PortMappings).1, some err) := by
  unfold startForwarding resolvedTrace
  rcases hb : buildOptions env spec with ⟨t1, r⟩
  rw [hb] at hopt
  simp only at hopt
  subst hopt
  simp only [hpod]
  rcases hl : portMappingsLoop env.portCheck spec.PortMappings with ⟨t3, r3⟩
  rw [hl] at hmap
  simp only at hmap
  subst hmap
  simp only

theorem startForwarding_of_opened (env : CallEnv) (spec : PortForwardingConfig)
    (log : Logger) (options : Options) (pod : Pod) (ports addresses : List String)
    (hopt : (buildOptions env spec).2 = .ok options)
    (hpod : env.selectSinglePod options = .ok (some pod))
    (hmap : (portMappingsLoop env.portCheck spec.PortMappings).2 = .ok (ports, addresses))
    (hpf : env.newPortForwarder pod ports addresses = none) :
    startForwarding env spec log =
      waitReady env log pod ports (openedTrace env spec log options pod ports addresses) := by
  unfold startForwarding openedTrace resolvedTrace
  rcases hb : buildOptions env spec with ⟨t1, r⟩
  rw [hb] at hopt
  simp only at hopt
  subst hopt
  simp only [hpod]
  rcases hl : portMappingsLoop env.portCheck spec.PortMappings with ⟨t3, r3⟩
  rw [hl] at hmap
  simp only at hmap
  subst hmap
  simp only [hpf, List.append_assoc, List.singleton_append, List.cons_append,
    List.nil_append]

/-! ## Claims on `startForwarding` -/

/-- C3, as stated, fails: with `brokenSpec` (a mapping without local port at
index 1) and a target selector that resolves a target, `startForwarding` calls
`SelectSinglePod` and probes the port of mapping 0 before it fails; with a
target selector that finds no target it does not fail at all. -/
theorem startForwarding_missingLocalPort_counterexample :
    (∃ m ∈ brokenSpec.PortMappings, m.LocalPort = none) ∧
    startForwarding readyEnv brokenSpec .client =
      ([.resolveImageName "",
        .startWait .client "Port-Forwarding: Waiting for containers to start...",
        .selectSinglePod sampleOptions,
        .stopWait .client,
        .portCheck 8080],
       some (.new "port is not defined in portmapping 1")) ∧
    ¬ (countKind .selectSinglePod (startForwarding readyEnv brokenSpec .client).1 = 0) ∧
    ¬ (countKind .portCheck (startForwarding readyEnv brokenSpec .client).1 = 0) ∧
    startForwarding noTargetEnv brokenSpec .client =
      ([.resolveImageName "",
        .startWait .client "Port-Forwarding: Waiting for containers to start...",
        .selectSinglePod sampleOptions,
        .stopWait .client],
       none) := by
  refine ⟨⟨_, List.mem_cons_of_mem _ (List.mem_cons_self _ _), rfl⟩, rfl, ?_, ?_, rfl⟩
  · decide
  · decide

/-- C3, amended: when the image-selector resolution succeeds and the target
selector resolves a target, a spec whose first mapping without local port has
index `i` makes `startForwarding` fail with the index-qualified error after
the one call of `SelectSinglePod` and after the probes of the `i` mappings
before it; nothing is done for the mappings from `i` on, `NewPortForwarder`
is not called and no goroutine is started. -/
theorem startForwarding_missingLocalPort (env : CallEnv) (spec : PortForwardingConfig)
    (log : Logger) (options : Options) (pod : Pod) (i : Nat) (m : PortMapping)
    (hopt : (buildOptions env spec).2 = .ok options)
    (hpod : env.selectSinglePod options = .ok (some pod))
    (hi : spec.PortMappings[i]? = some m) (hm : m.LocalPort = none)
    (hlt : ∀ (j : Nat) (m' : PortMapping), j < i → spec.PortMappings[j]? = some m' →
      m'.LocalPort ≠ none) :
    startForwarding env spec log =
      (resolvedTrace env spec log options ++
        probesOf env.portCheck (spec.PortMappings.take i) 0,
       some (.new ("port is not defined in portmapping " ++ toString i))) ∧
    countKind .selectSinglePod (startForwarding env spec log).1 = 1 ∧
    countKind .portCheck (startForwarding env spec log).1 = i ∧
    countKind .newPortForwarder (startForwarding env spec log).1 = 0 ∧
    countKind .goForwardPorts (startForwarding env spec log).1 = 0 ∧
    countKind .goWatcher (startForwarding env spec log).1 = 0 := by
  have herr := (portMappingsFrom_error env.portCheck spec.PortMappings 0
      { ports := List.replicate spec.PortMappings.length ""
        addresses := List.replicate spec.PortMappings.length ""
        trace := [] } i m hi hm hlt)
  have herr' : (portMappingsLoop env.portCheck spec.PortMappings).2
      = .error (.new ("port is not defined in portmapping " ++ toString i)) := by
    simpa [portMappingsLoop] using herr
  obtain ⟨htake, hall⟩ := takeWhile_eq_take_of_first_missing spec.PortMappings i m hi hm hlt
  have hlen : (spec.PortMappings.take i).length = i := by
    have : i < spec.PortMappings.length := by
      rcases List.getElem?_eq_some_iff.mp hi with ⟨h, _⟩
      exact h
    simp [List.length_take]
    omega
  have heq := startForwarding_of_loop_error env spec log options pod _ hopt hpod herr'
  rw [portMappingsLoop_trace, htake] at heq
  have hprobe := countKind_portCheck_probesOf env.portCheck (spec.PortMappings.take i) 0 hall
  rw [heq]
  refine ⟨rfl, ?_, ?_, ?_, ?_, ?_⟩
  · simp [countKind_resolvedTrace, countKind_probesOf]
  · simp [countKind_resolvedTrace, hprobe, hlen]
  · simp [countKind_resolvedTrace, countKind_probesOf]
  · simp [countKind_resolvedTrace, countKind_probesOf]
  · simp [countKind_resolvedTrace, countKind_probesOf]

/-- C3, amended, witness: the theorem at `brokenSpec`, whose first mapping
without local port has index 1. -/
theorem startForwarding_missingLocalPort_witness :
    startForwarding readyEnv brokenSpec .discard =
      (resolvedTrace readyEnv brokenSpec .discard sampleOptions ++
        probesOf readyEnv.portCheck (brokenSpec.PortMappings.take 1) 0,
       some (.new ("port is not defined in portmapping " ++ toString 1))) ∧
    countKind .selectSinglePod (startForwarding readyEnv brokenSpec .discard).1 = 1 ∧
    countKind .portCheck (startForwarding readyEnv brokenSpec .discard).1 = 1 ∧
    countKind .newPortForwarder (startForwarding readyEnv brokenSpec .discard).1 = 0 ∧
    countKind .goForwardPorts (startForwarding readyEnv brokenSpec .discard).1 = 0 ∧
    countKind .goWatcher (startForwarding readyEnv brokenSpec .discard).1 = 0 :=
  startForwarding_missingLocalPort readyEnv brokenSpec .discard sampleOptions samplePod 1
    { LocalPort := none, RemotePort := some 80, BindAddress := "" } rfl rfl rfl rfl
    (by
      intro j m' hj hm
      obtain rfl : j = 0 := by omega
      simp [brokenSpec, brokenMappings] at hm
      subst hm
      simp)

/-- C4: when the image-selector resolution succeeds and the target selector
returns no target and no error, `startForwarding` returns `nil` after the call
of the target selector and does nothing else: no mapping is probed,
`NewPortForwarder` is not called, neither the forwarding goroutine nor the
watcher is started. -/
theorem startForwarding_noTarget (env : CallEnv) (spec : PortForwardingConfig)
    (log : Logger) (options : Options)
    (hopt : (buildOptions env spec).2 = .ok options)
    (hpod : env.selectSinglePod options = .ok none) :
    startForwarding env spec log =
      ([.resolveImageName spec.ImageName] ++
        (if spec.ImageSelector ≠ "" then
          [.resolveImageAsImageSelector spec.ImageSelector] else []) ++
        [.startWait log "Port-Forwarding: Waiting for containers to start...",
         .selectSinglePod options,
         .stopWait log],
       none) ∧
    countKind .portCheck (startForwarding env spec log).1 = 0 ∧
    countKind .warnf (startForwarding env spec log).1 = 0 ∧
    countKind .newPortForwarder (startForwarding env spec log).1 = 0 ∧
    countKind .goForwardPorts (startForwarding env spec log).1 = 0 ∧
    countKind .goWatcher (startForwarding env spec log).1 = 0 := by
  have heq := startForwarding_of_noTarget env spec log options hopt hpod
  have htr := buildOptions_trace_ok env spec options hopt
  refine ⟨?_, ?_, ?_, ?_, ?_, ?_⟩
  · rw [heq, resolvedTrace, htr]
  all_goals rw [heq]; simp [countKind_resolvedTrace]

/-- C4, witness: the theorem at `sampleSpec` with a target selector that
finds no target. -/
theorem startForwarding_noTarget_witness :
    startForwarding noTargetEnv sampleSpec .client =
      ([.resolveImageName sampleSpec.ImageName] ++
        (if sampleSpec.ImageSelector ≠ "" then
          [.resolveImageAsImageSelector sampleSpec.ImageSelector] else []) ++
        [.startWait .client "Port-Forwarding: Waiting for containers to start...",
         .selectSinglePod sampleOptions,
         .stopWait .client],
       none) ∧
    countKind .portCheck (startForwarding noTargetEnv sampleSpec .client).1 = 0 ∧
    countKind .warnf (startForwarding noTargetEnv sampleSpec .client).1 = 0 ∧
    countKind .newPortForwarder (startForwarding noTargetEnv sampleSpec .client).1 = 0 ∧
    countKind .goForwardPorts (startForwarding noTargetEnv sampleSpec .client).1 = 0 ∧
    countKind .goWatcher (startForwarding noTargetEnv sampleSpec .client).1 = 0 :=
  startForwarding_noTarget noTargetEnv sampleSpec .client sampleOptions rfl rfl

/-- C7: once the channel is opened, the case first receivable within the
20-second deadline decides `startForwarding`.  Readiness first: the call
returns `nil`, logs one `Port forwarding started on ..` line with the
port-pair strings joined by `", "` and the namespace and name of the target,
and starts one watcher.  A failure `e` first: the call returns `e` wrapped
with `forward ports` and starts no watcher.  Neither within 20 seconds: the
call returns the timeout error and starts no watcher. -/
theorem startForwarding_readiness (env : CallEnv) (spec : PortForwardingConfig)
    (log : Logger) (options : Options) (pod : Pod) (ports addresses : List String)
    (hopt : (buildOptions env spec).2 = .ok options)
    (hpod : env.selectSinglePod options = .ok (some pod))
    (hmap : (portMappingsLoop env.portCheck spec.PortMappings).2 = .ok (ports, addresses))
    (hpf : env.newPortForwarder pod ports addresses = none) :
    (∀ t : Nat, env.readyAt = some t → t < 20 * time.Second →
      (∀ (te : Nat) (e : Option GoError), env.errorAt = some (te, e) → t < te) →
      startForwarding env spec log =
        (openedTrace env spec log options pod ports addresses ++
          [.donef log ("Port forwarding started on " ++ strings.Join ports ", " ++
              " (" ++ pod.Namespace ++ "/" ++ pod.Name ++ ")"),
           .goWatcher], none) ∧
      countKind .donef (startForwarding env spec log).1 = 1 ∧
      countKind .goWatcher (startForwarding env spec log).1 = 1) ∧
    (∀ (te : Nat) (e : GoError), env.errorAt = some (te, some e) → te < 20 * time.Second →
      (∀ t : Nat, env.readyAt = some t → te < t) →
      startForwarding env spec log =
        (openedTrace env spec log options pod ports addresses,
          some (.wrap e "forward ports")) ∧
      countKind .donef (startForwarding env spec log).1 = 0 ∧
      countKind .goWatcher (startForwarding env spec log).1 = 0) ∧
    ((∀ t : Nat, env.readyAt = some t → 20 * time.Second < t) →
      (∀ (te : Nat) (e : Option GoError), env.errorAt = some (te, e) →
        20 * time.Second < te) →
      startForwarding env spec log =
        (openedTrace env spec log options pod ports addresses,
          some (.new "Timeout waiting for port forwarding to start")) ∧
      countKind .donef (startForwarding env spec log).1 = 0 ∧
      countKind .goWatcher (startForwarding env spec log).1 = 0) := by
  have heq := startForwarding_of_opened env spec log options pod ports addresses
    hopt hpod hmap hpf
  have hd := countKind_openedTrace env spec log options pod ports addresses .donef (by simp)
  have hw := countKind_openedTrace env spec log options pod ports addresses .goWatcher
    (by simp)
  refine ⟨?_, ?_, ?_⟩
  · intro t hr ht he
    have hsel := selectReadiness_ready t env.errorAt env.pick ht he
    rw [← hr] at hsel
    rw [heq]
    simp [waitReady, hsel, hd, hw, Event.kind]
  · intro te e herr hte hr
    have hsel := selectReadiness_failure env.readyAt te (some e) env.pick hte hr
    rw [← herr] at hsel
    rw [heq]
    simp [waitReady, hsel, hd, hw, errors.Wrap]
  · intro hr he
    have hsel := selectReadiness_timeout env.readyAt env.errorAt env.pick hr he
    rw [heq]
    simp [waitReady, hsel, hd, hw]

/-- C7, witness: with `readyEnv` readiness fires after 100 ms and no failure
is ever reported. -/
theorem startForwarding_readiness_witness :
    startForwarding readyEnv sampleSpec .client =
      (openedTrace readyEnv sampleSpec .client sampleOptions samplePod
          ["8080:8080", "3000:80"] ["localhost", "0.0.0.0"] ++
        [.donef .client ("Port forwarding started on " ++
            strings.Join ["8080:8080", "3000:80"] ", " ++
            " (" ++ samplePod.Namespace ++ "/" ++ samplePod.Name ++ ")"),
         .goWatcher], none) ∧
    countKind .donef (startForwarding readyEnv sampleSpec .client).1 = 1 ∧
    countKind .goWatcher (startForwarding readyEnv sampleSpec .client).1 = 1 :=
  (startForwarding_readiness readyEnv sampleSpec .client sampleOptions samplePod
    ["8080:8080", "3000:80"] ["localhost", "0.0.0.0"] rfl rfl rfl rfl).1
    100000000 rfl (by decide) (by intro te e h; cases h)

/-! ## The retry loop of the watcher -/

@[simp] theorem countEvent_nil (e : Event) : countEvent e [] = 0 := rfl

@[simp] theorem countEvent_append (e : Event) (s t : Trace) :
    countEvent e (s ++ t) = countEvent e s + countEvent e t := by
  simp [countEvent]

@[simp] theorem countEvent_cons (e x : Event) (t : Trace) :
    countEvent e (x :: t) = countEvent e t + if x = e then 1 else 0 := by
  simp [countEvent, List.countP_cons]

theorem countEvent_le_countKind (e : Event) (t : Trace) :
    countEvent e t ≤ countKind e.kind t := by
  unfold countEvent countKind
  apply List.countP_mono_left
  intro x _ hx
  simp only [decide_eq_true_eq] at hx ⊢
  rw [hx]

theorem countEvent_startForwarding (env : CallEnv) (spec : PortForwardingConfig)
    (log : Logger) (e : Event)
    (h : e.kind = .executeHook ∨ e.kind = .logExecuteHook ∨ e.kind = .callStartForwarding ∨
      e.kind = .errorf ∨ e.kind = .pfClose ∨ e.kind = .sleep) :
    countEvent e (startForwarding env spec log).1 = 0 := by
  have h1 := countEvent_le_countKind e (startForwarding env spec log).1
  rw [countKind_startForwarding env spec log e.kind h] at h1
  omega

theorem retryLoop_exit (envs : Nat → CallEnv) (cache : CacheConfig)
    (spec : PortForwardingConfig) :
    ∀ (k fuel i : Nat), k < fuel →
      (∀ j : Nat, j < k → (startForwarding (envs (i + j)) spec .discard).2 ≠ none) →
      (startForwarding (envs (i + k)) spec .discard).2 = none →
      (retryLoop envs cache spec fuel i).returned = true ∧
      (retryLoop envs cache spec fuel i).trace =
        ((List.range k).map
            (fun j => failedIterationTrace envs cache spec (i + j))).flatten ++
          [.callStartForwarding cache spec .discard] ++
          (startForwarding (envs (i + k)) spec .discard).1 ++
          [.sleep (time.Second * 3)] ∧
      countEvent (.callStartForwarding cache spec .discard)
        (retryLoop envs cache spec fuel i).trace = k + 1 ∧
      countKind .callStartForwarding (retryLoop envs cache spec fuel i).trace = k + 1 ∧
      countEvent (.sleep (time.Second * 15)) (retryLoop envs cache spec fuel i).trace = k ∧
      countEvent (.sleep (time.Second * 3)) (retryLoop envs cache spec fuel i).trace = 1 ∧
      countKind .sleep (retryLoop envs cache spec fuel i).trace = k + 1 ∧
      countHook "portForwarding.restart" (retryLoop envs cache spec fuel i).trace = k ∧
      countKind .errorf (retryLoop envs cache spec fuel i).trace = 2 * k ∧
      countKind .pfClose (retryLoop envs cache spec fuel i).trace = 0 ∧
      countKind .goWatcher (retryLoop envs cache spec fuel i).trace =
        countKind .goWatcher (startForwarding (envs (i + k)) spec .discard).1 := by
  intro k
  induction k with
  | zero =>
    intro fuel i hk _ hsucc
    obtain ⟨fuel, rfl⟩ : ∃ f, fuel = f + 1 := ⟨fuel - 1, by omega⟩
    simp only [Nat.add_zero] at hsucc ⊢
    rcases hsf : startForwarding (envs i) spec .discard with ⟨t, r⟩
    rw [hsf] at hsucc
    simp only at hsucc
    subst hsucc
    have c1 := countKind_startForwarding (envs i) spec .discard
    have c2 := countEvent_startForwarding (envs i) spec .discard
    have c3 := countHook_startForwarding (envs i) spec .discard
    rw [hsf] at c1 c2 c3
    simp only at c1 c2 c3
    have h315 : ¬ (time.Second * 3 = time.Second * 15) := by decide
    simp [retryLoop, hsf, Event.kind, Event.isHook, c1, c2, c3, h315]
  | succ k ih =>
    intro fuel i hk hfail hsucc
    obtain ⟨fuel, rfl⟩ : ∃ f, fuel = f + 1 := ⟨fuel - 1, by omega⟩
    have h0 := hfail 0 (by omega)
    have hrec := ih fuel (i + 1) (by omega)
      (fun j hj => by
        have := hfail (j + 1) (by omega)
        rwa [show i + (j + 1) = i + 1 + j by omega] at this)
      (by rwa [show i + (k + 1) = i + 1 + k by omega] at hsucc)
    simp only [Nat.add_zero] at h0
    have hfit : failedIterationTrace envs cache spec i =
        [.callStartForwarding cache spec .discard] ++
          (startForwarding (envs i) spec .discard).1 ++
          (match (startForwarding (envs i) spec .discard).2 with
           | some err =>
             [.logExecuteHook "portForwarding.restart" spec (some err),
              .errorf .client ("Error restarting port-forwarding: " ++ err.Error),
              .errorf .client "Will try again in 15 seconds",
              .sleep (time.Second * 15)]
           | none => []) := rfl
    have c1 := countKind_startForwarding (envs i) spec .discard
    have c2 := countEvent_startForwarding (envs i) spec .discard
    have c3 := countHook_startForwarding (envs i) spec .discard
    rcases hsf : startForwarding (envs i) spec .discard with ⟨t, _ | err⟩
    · rw [hsf] at h0; exact absurd rfl h0
    rw [hsf] at c1 c2 c3 hfit
    simp only at c1 c2 c3 hfit
    obtain ⟨r1, r2, r3, r4, r5, r6, r7, r8, r10, r11, r12⟩ := hrec
    have h153 : ¬ (time.Second * 15 = time.Second * 3) := by decide
    have hmap : (List.range (k + 1)).map
          (fun j => failedIterationTrace envs cache spec (i + j)) =
        failedIterationTrace envs cache spec i ::
          (List.range k).map (fun j => failedIterationTrace envs cache spec (i + 1 + j)) := by
      rw [List.range_succ_eq_map, List.map_cons, List.map_map]
      congr 1
      apply List.map_congr_left
      intro j _
      simp only [Function.comp, Nat.succ_eq_add_one]
      rw [show i + (j + 1) = i + 1 + j by omega]
    have hk1 : i + (k + 1) = i + 1 + k := by omega
    have htr : (retryLoop envs cache spec (fuel + 1) i).trace =
        [.callStartForwarding cache spec .discard] ++ t ++
          [.logExecuteHook "portForwarding.restart" spec (some err),
           .errorf .client ("Error restarting port-forwarding: " ++ err.Error),
           .errorf .client "Will try again in 15 seconds",
           .sleep (time.Second * 15)] ++
          (retryLoop envs cache spec fuel (i + 1)).trace := by
      simp [retryLoop, hsf]
    have hret : (retryLoop envs cache spec (fuel + 1) i).returned =
        (retryLoop envs cache spec fuel (i + 1)).returned := by
      simp [retryLoop, hsf]
    rw [hret, htr, hk1]
    refine ⟨r1, ?_, ?_, ?_, ?_, ?_, ?_, ?_, ?_, ?_, ?_⟩
    · rw [r2, hmap, List.flatten_cons, hfit]
      simp
    · simp [r3, c2, Event.kind]
    · simp [r4, c1, Event.kind]
    · simp [r5, c2, Event.kind]
    · simp [r6, c2, Event.kind, h153]
    · simp [r7, c1, Event.kind]
    · simp [r8, c3, Event.isHook]
    · simp [r10, c1, Event.kind]; omega
    · simp [r11, c1, Event.kind]
    · simp [r12, countKind_goWatcher_of_error (envs i) spec .discard (by rw [hsf]; simp),
        Event.kind]
      have := countKind_goWatcher_of_error (envs i) spec .discard (by rw [hsf]; simp)
      rw [hsf] at this
      exact this

theorem retryLoop_running (envs : Nat → CallEnv) (cache : CacheConfig)
    (spec : PortForwardingConfig)
    (hfail : ∀ j : Nat, (startForwarding (envs j) spec .discard).2 ≠ none) :
    ∀ (fuel i : Nat),
      (retryLoop envs cache spec fuel i).returned = false ∧
      countKind .callStartForwarding (retryLoop envs cache spec fuel i).trace = fuel ∧
      countEvent (.sleep (time.Second * 15)) (retryLoop envs cache spec fuel i).trace = fuel ∧
      countKind .sleep (retryLoop envs cache spec fuel i).trace = fuel := by
  intro fuel
  induction fuel with
  | zero => intro i; simp [retryLoop]
  | succ fuel ih =>
    intro i
    have h0 := hfail i
    have c1 := countKind_startForwarding (envs i) spec .discard
    have c2 := countEvent_startForwarding (envs i) spec .discard
    rcases hsf : startForwarding (envs i) spec .discard with ⟨t, _ | err⟩
    · rw [hsf] at h0; exact absurd rfl h0
    rw [hsf] at c1 c2
    simp only at c1 c2
    obtain ⟨r1, r2, r3, r4⟩ := ih (i + 1)
    simp [retryLoop, hsf, r1, r2, r3, r4, c1, c2, Event.kind]

theorem countKind_goWatcher_of_ready (env : CallEnv) (spec : PortForwardingConfig)
    (log : Logger) (options : Options) (pod : Pod)
    (hsucc : (startForwarding env spec log).2 = none)
    (hopt : (buildOptions env spec).2 = .ok options)
    (hpod : env.selectSinglePod options = .ok (some pod))
    (hsel : selectReadiness env.readyAt env.errorAt env.pick = .ready) :
    countKind .goWatcher (startForwarding env spec log).1 = 1 := by
  rcases startForwarding_shape env spec log with
    ⟨err, h1, heq⟩ | ⟨options', h1, ⟨err, h2, heq⟩ | ⟨h2, heq⟩ | ⟨pod', h2, ⟨err, h3, heq⟩ |
      ⟨ports, addresses, h3, ⟨err, h4, heq⟩ | ⟨h4, heq⟩⟩⟩⟩
  · rw [hopt] at h1; cases h1
  all_goals (rw [hopt] at h1; cases h1)
  · rw [hpod] at h2; cases h2
  · rw [hpod] at h2; cases h2
  all_goals (rw [hpod] at h2; cases h2)
  · rw [heq] at hsucc; cases hsucc
  · rw [heq] at hsucc; cases hsucc
  · rw [heq]
    simp [waitReady, hsel, countKind_openedTrace, Event.kind]

/-! ## Claims on the watcher -/

/-- C8: a watcher that receives a failure `e` after readiness closes the
channel once, emits the restart hook for `e` and retries `startForwarding`
with the same spec and cache.  If the first `k` attempts fail and the next one
succeeds, the loop makes `k + 1` attempts, each failed one followed by its
restart hook, two error lines and a sleep of 15 seconds, then sleeps 3 seconds
once and the goroutine returns.  While every attempt fails the goroutine does
not return: within `fuel` iterations it makes `fuel` attempts, for every
`fuel`. -/
theorem watcher_retry (envs : Nat → CallEnv) (cache : CacheConfig)
    (spec : PortForwardingConfig) (e : GoError) :
    (∀ k fuel : Nat, k < fuel →
      (∀ j : Nat, j < k → (startForwarding (envs j) spec .discard).2 ≠ none) →
      (startForwarding (envs k) spec .discard).2 = none →
      (watcher envs cache spec (some (.failure (some e))) fuel).returned = true ∧
      (watcher envs cache spec (some (.failure (some e))) fuel).trace =
        [.pfClose, .logExecuteHook "portForwarding.restart" spec (some e)] ++
          ((List.range k).map (fun j => failedIterationTrace envs cache spec j)).flatten ++
          [.callStartForwarding cache spec .discard] ++
          (startForwarding (envs k) spec .discard).1 ++
          [.sleep (time.Second * 3)] ∧
      countKind .pfClose (watcher envs cache spec (some (.failure (some e))) fuel).trace = 1 ∧
      countEvent (.callStartForwarding cache spec .discard)
        (watcher envs cache spec (some (.failure (some e))) fuel).trace = k + 1 ∧
      countKind .callStartForwarding
        (watcher envs cache spec (some (.failure (some e))) fuel).trace = k + 1 ∧
      countEvent (.sleep (time.Second * 15))
        (watcher envs cache spec (some (.failure (some e))) fuel).trace = k ∧
      countEvent (.sleep (time.Second * 3))
        (watcher envs cache spec (some (.failure (some e))) fuel).trace = 1 ∧
      countKind .sleep (watcher envs cache spec (some (.failure (some e))) fuel).trace
        = k + 1 ∧
      countHook "portForwarding.restart"
        (watcher envs cache spec (some (.failure (some e))) fuel).trace = k + 1 ∧
      countKind .errorf (watcher envs cache spec (some (.failure (some e))) fuel).trace
        = 2 * k) ∧
    ((∀ j : Nat, (startForwarding (envs j) spec .discard).2 ≠ none) →
      ∀ fuel : Nat,
        (watcher envs cache spec (some (.failure (some e))) fuel).returned = false ∧
        countKind .callStartForwarding
          (watcher envs cache spec (some (.failure (some e))) fuel).trace = fuel ∧
        countEvent (.sleep (time.Second * 15))
          (watcher envs cache spec (some (.failure (some e))) fuel).trace = fuel) := by
  constructor
  · intro k fuel hk hfail hsucc
    obtain ⟨r1, r2, r3, r4, r5, r6, r7, r8, r10, r11, _⟩ :=
      retryLoop_exit envs cache spec k fuel 0 hk
        (fun j hj => by simpa using hfail j hj) (by simpa using hsucc)
    simp only [Nat.zero_add] at r2
    simp only [watcher]
    refine ⟨r1, ?_, ?_, ?_, ?_, ?_, ?_, ?_, ?_, ?_⟩
    · rw [r2]; simp
    · simp [r11, Event.kind]
    · simp [r3]
    · simp [r4, Event.kind]
    · simp [r5]
    · simp [r6]
    · simp [r7, Event.kind]
    · simp [r8, Event.isHook]
    · simp [r10, Event.kind]
  · intro hfail fuel
    obtain ⟨r1, r2, r3, _⟩ := retryLoop_running envs cache spec hfail fuel 0
    simp only [watcher]
    exact ⟨r1, by simp [r2, Event.kind], by simp [r3]⟩

/-- C8, witness: the first restart attempt fails in the target selector, the
second succeeds; two iterations are observed. -/
theorem watcher_retry_witness :
    (watcher retryEnvs { id := 0 } sampleSpec (some (.failure (some sampleFailure))) 2).returned
      = true ∧
    countEvent (.callStartForwarding { id := 0 } sampleSpec .discard)
      (watcher retryEnvs { id := 0 } sampleSpec (some (.failure (some sampleFailure))) 2).trace
      = 1 + 1 ∧
    countEvent (.sleep (time.Second * 15))
      (watcher retryEnvs { id := 0 } sampleSpec (some (.failure (some sampleFailure))) 2).trace
      = 1 ∧
    countEvent (.sleep (time.Second * 3))
      (watcher retryEnvs { id := 0 } sampleSpec (some (.failure (some sampleFailure))) 2).trace
      = 1 :=
  have h := (watcher_retry retryEnvs { id := 0 } sampleSpec sampleFailure).1 1 2 (by decide)
    (by
      intro j hj
      obtain rfl : j = 0 := by omega
      have : (startForwarding (retryEnvs 0) sampleSpec .discard).2
          = some (.new "Error selecting pod: timeout") := rfl
      rw [this]
      simp)
    rfl
  ⟨h.1, h.2.2.2.1, h.2.2.2.2.2.1, h.2.2.2.2.2.2.1⟩

/-- C10, as stated, fails: a restart attempt in which the target selector
finds no target returns `nil`, so the retry loop sleeps 3 seconds and the
watcher returns, and no new watcher was started. -/
theorem watcher_restart_counterexample :
    (startForwarding noTargetEnv sampleSpec .discard).2 = none ∧
    watcher (fun _ => noTargetEnv) { id := 0 } sampleSpec
        (some (.failure (some sampleFailure))) 1 =
      { trace :=
          [.pfClose,
           .logExecuteHook "portForwarding.restart" sampleSpec (some sampleFailure),
           .callStartForwarding { id := 0 } sampleSpec .discard,
           .resolveImageName "",
           .startWait .discard "Port-Forwarding: Waiting for containers to start...",
           .selectSinglePod sampleOptions,
           .stopWait .discard,
           .sleep (time.Second * 3)]
        returned := true } ∧
    countKind .goWatcher
      (watcher (fun _ => noTargetEnv) { id := 0 } sampleSpec
        (some (.failure (some sampleFailure))) 1).trace = 0 := by
  refine ⟨rfl, rfl, ?_⟩
  decide

/-- C10, amended: when the retry loop stops looping after a successful restart
attempt, that attempt has started exactly one new watcher if its target
selector resolved a target and its readiness `select` took the readiness case;
if its target selector found no target, no watcher was started by the loop. -/
theorem watcher_restart_watcher (envs : Nat → CallEnv) (cache : CacheConfig)
    (spec : PortForwardingConfig) (e : GoError) (k fuel : Nat) (hk : k < fuel)
    (hfail : ∀ j : Nat, j < k → (startForwarding (envs j) spec .discard).2 ≠ none)
    (hsucc : (startForwarding (envs k) spec .discard).2 = none) :
    (watcher envs cache spec (some (.failure (some e))) fuel).returned = true ∧
    (∀ (options : Options) (pod : Pod),
      (buildOptions (envs k) spec).2 = .ok options →
      (envs k).selectSinglePod options = .ok (some pod) →
      selectReadiness (envs k).readyAt (envs k).errorAt (envs k).pick = .ready →
      countKind .goWatcher
        (watcher envs cache spec (some (.failure (some e))) fuel).trace = 1) ∧
    (∀ options : Options,
      (buildOptions (envs k) spec).2 = .ok options →
      (envs k).selectSinglePod options = .ok none →
      countKind .goWatcher
        (watcher envs cache spec (some (.failure (some e))) fuel).trace = 0) := by
  obtain ⟨r1, _, _, _, _, _, _, _, _, _, r12⟩ :=
    retryLoop_exit envs cache spec k fuel 0 hk
      (fun j hj => by simpa using hfail j hj) (by simpa using hsucc)
  simp only [Nat.zero_add] at r12
  simp only [watcher]
  refine ⟨r1, ?_, ?_⟩
  · intro options pod hopt hpod hsel
    have := countKind_goWatcher_of_ready (envs k) spec .discard options pod hsucc hopt hpod hsel
    simp [r12, this, Event.kind]
  · intro options hopt hpod
    have heq := startForwarding_of_noTarget (envs k) spec .discard options hopt hpod
    simp [r12, heq, countKind_resolvedTrace, Event.kind]

/-- C10, amended, witness: the first restart attempt fails in the target
selector, the second resolves `T1` and becomes ready. -/
theorem watcher_restart_watcher_witness :
    (watcher retryEnvs { id := 0 } sampleSpec (some (.failure (some sampleFailure))) 2).returned
      = true ∧
    countKind .goWatcher
      (watcher retryEnvs { id := 0 } sampleSpec (some (.failure (some sampleFailure))) 2).trace
      = 1 :=
  have h := watcher_restart_watcher retryEnvs { id := 0 } sampleSpec sampleFailure 1 2
    (by decide)
    (by
      intro j hj
      obtain rfl : j = 0 := by omega
      have : (startForwarding (retryEnvs 0) sampleSpec .discard).2
          = some (.new "Error selecting pod: timeout") := rfl
      rw [this]
      simp)
    rfl
  ⟨h.1, h.2.1 sampleOptions samplePod rfl rfl
    (selectReadiness_ready 100000000 none 0 (by decide) (by intro te e h; cases h))⟩

/-! ## The loop of `StartPortForwarding` -/

theorem portsLoop_activeSpecs (envs : Nat → SpecEnv) (cache : CacheConfig) :
    ∀ (ports : List PortForwardingConfig) (n : Nat),
      portsLoop envs cache ports n = portsLoop envs cache (activeSpecs ports) n := by
  intro ports
  induction ports with
  | nil => intro n; rfl
  | cons spec rest ih =>
    intro n
    by_cases h : spec.PortMappings.length = 0
    · have : activeSpecs (spec :: rest) = activeSpecs rest := by
        simp [activeSpecs, List.filter, h]
      rw [this, ← ih n]
      simp [portsLoop, h]
    · have : activeSpecs (spec :: rest) = spec :: activeSpecs rest := by
        simp [activeSpecs, List.filter, h]
      rw [this]
      simp only [portsLoop, h, if_false, ih]

theorem mem_activeSpecs (ports : List PortForwardingConfig) (s : PortForwardingConfig)
    (h : s ∈ activeSpecs ports) : s.PortMappings.length ≠ 0 := by
  simpa using (List.mem_filter.mp h).2

theorem startedPrefix_counts (envs : Nat → SpecEnv) (cache : CacheConfig) :
    ∀ (specs : List PortForwardingConfig) (n : Nat),
      countHook "portForwarding.start" (startedPrefix envs cache n specs) = specs.length ∧
      countKind .callStartForwarding (startedPrefix envs cache n specs) = specs.length ∧
      countHook "portForwarding.error" (startedPrefix envs cache n specs) = 0 := by
  intro specs
  induction specs with
  | nil => intro n; simp [startedPrefix]
  | cons s rest ih =>
    intro n
    obtain ⟨h1, h2, h3⟩ := ih (n + 1)
    have hcons : startedPrefix envs cache n (s :: rest) =
        startedTrace envs cache n s ++ startedPrefix envs cache (n + 1) rest := by
      simp [startedPrefix]
    rw [hcons]
    simp [startedTrace, h1, h2, h3, countHook_startForwarding, countKind_startForwarding,
      Event.kind, Event.isHook]

theorem portsLoop_prefix (envs : Nat → SpecEnv) (cache : CacheConfig) :
    ∀ (j : Nat) (active : List PortForwardingConfig) (n : Nat),
      (∀ s ∈ active, s.PortMappings.length ≠ 0) →
      (∀ (i : Nat) (s : PortForwardingConfig), i < j → active[i]? = some s →
        specStarted envs (n + i) s) →
      portsLoop envs cache active n =
        (startedPrefix envs cache n (active.take j) ++
          (portsLoop envs cache (active.drop j) (n + j)).1,
         (portsLoop envs cache (active.drop j) (n + j)).2) := by
  intro j
  induction j with
  | zero => intro active n _ _; simp [startedPrefix]
  | succ j ih =>
    intro active n hne hok
    cases active with
    | nil => simp [startedPrefix, portsLoop]
    | cons s rest =>
      have hs : s.PortMappings.length ≠ 0 := hne s (List.mem_cons_self _ _)
      obtain ⟨hhook, hsf⟩ := hok 0 s (by omega) (by simp)
      simp only [Nat.add_zero] at hhook hsf
      have hrec := ih rest (n + 1) (fun s hs => hne s (List.mem_cons_of_mem _ hs))
        (fun i s' hi hget => by
          have := hok (i + 1) s' (by omega) (by simpa using hget)
          rwa [show n + (i + 1) = n + 1 + i by omega] at this)
      rcases hcall : startForwarding (envs n).call s .client with ⟨t, r⟩
      rw [hcall] at hsf
      simp only at hsf
      subst hsf
      have hcons : startedPrefix envs cache n (s :: List.take j rest) =
          startedTrace envs cache n s ++ startedPrefix envs cache (n + 1) (rest.take j) := by
        simp [startedPrefix]
      simp only [portsLoop, hs, if_false, hhook, hcall, List.take_succ_cons,
        List.drop_succ_cons, hcons, startedTrace]
      rw [hrec, show n + (j + 1) = n + 1 + j by omega]
      simp

theorem portsLoop_none (envs : Nat → SpecEnv) (cache : CacheConfig) :
    ∀ (active : List PortForwardingConfig) (n : Nat),
      (∀ s ∈ active, s.PortMappings.length ≠ 0) →
      (portsLoop envs cache active n).2 = none →
      ∀ (j : Nat) (spec : PortForwardingConfig), active[j]? = some spec →
        specStarted envs (n + j) spec := by
  intro active
  induction active with
  | nil => intro n _ _ j spec h; simp at h
  | cons s rest ih =>
    intro n hne hres j spec hget
    have hs : s.PortMappings.length ≠ 0 := hne s (List.mem_cons_self _ _)
    simp only [portsLoop, hs, if_false] at hres
    cases hhook : (envs n).startHook with
    | some pe => rw [hhook] at hres; simp at hres
    | none =>
      rw [hhook] at hres
      simp only at hres
      rcases hcall : startForwarding (envs n).call s .client with ⟨t, _ | err⟩
      · rw [hcall] at hres
        simp only at hres
        cases j with
        | zero =>
          simp at hget
          subst hget
          exact ⟨hhook, by simp [hcall]⟩
        | succ j =>
          have := ih (n + 1) (fun s hs => hne s (List.mem_cons_of_mem _ hs)) hres j spec
            (by simpa using hget)
          rwa [show n + (j + 1) = n + 1 + j by omega]
      · rw [hcall] at hres
        simp only at hres
        cases hh : (envs n).errorHook err <;> rw [hh] at hres <;> simp at hres

theorem drop_of_getElem? {α : Type} (l : List α) (j : Nat) (a : α) (h : l[j]? = some a) :
    l.drop j = a :: l.drop (j + 1) ∧ (l.take j).length = j := by
  obtain ⟨hlt, ha⟩ := List.getElem?_eq_some_iff.mp h
  refine ⟨?_, ?_⟩
  · rw [List.drop_eq_getElem_cons hlt, ha]
  · rw [List.length_take]
    omega

theorem StartPortForwarding_eq_portsLoop (serviceClient : Client) (envs : Nat → SpecEnv)
    (ports : List PortForwardingConfig) (generated : GeneratedConfig)
    (hconfig : serviceClient.config
      = some { Ports := some ports, Generated := some generated }) :
    StartPortForwarding serviceClient envs =
      portsLoop envs generated.Active (activeSpecs ports) 0 := by
  unfold StartPortForwarding
  rw [hconfig]
  exact portsLoop_activeSpecs envs generated.Active ports 0

/-! ## Claims on `StartPortForwarding` -/

/-- C5: `StartPortForwarding` handles the specs with port mappings in
configuration order and stops at the first one whose start hook fails or whose
call of `startForwarding` fails: it returns a non-nil error (in the second case
after one emission of the error hook), and nothing is done for the later specs,
so the start hook was emitted once for each spec up to the failing one and
`startForwarding` was called for no later spec.  It returns `nil` exactly when
the start hook and `startForwarding` succeed for each of these specs. -/
theorem StartPortForwarding_failFast (serviceClient : Client) (envs : Nat → SpecEnv)
    (ports : List PortForwardingConfig) (generated : GeneratedConfig)
    (hconfig : serviceClient.config
      = some { Ports := some ports, Generated := some generated }) :
    (∀ (j : Nat) (spec : PortForwardingConfig) (pluginErr : GoError),
      (activeSpecs ports)[j]? = some spec →
      (∀ (i : Nat) (s : PortForwardingConfig), i < j → (activeSpecs ports)[i]? = some s →
        specStarted envs i s) →
      (envs j).startHook = some pluginErr →
      StartPortForwarding serviceClient envs =
        (startedPrefix envs generated.Active 0 ((activeSpecs ports).take j) ++
          [.executeHook "portForwarding.start" spec none],
         some pluginErr) ∧
      countHook "portForwarding.start" (StartPortForwarding serviceClient envs).1 = j + 1 ∧
      countKind .callStartForwarding (StartPortForwarding serviceClient envs).1 = j ∧
      countHook "portForwarding.error" (StartPortForwarding serviceClient envs).1 = 0) ∧
    (∀ (j : Nat) (spec : PortForwardingConfig) (err : GoError),
      (activeSpecs ports)[j]? = some spec →
      (∀ (i : Nat) (s : PortForwardingConfig), i < j → (activeSpecs ports)[i]? = some s →
        specStarted envs i s) →
      (envs j).startHook = none →
      (startForwarding (envs j).call spec .client).2 = some err →
      StartPortForwarding serviceClient envs =
        (startedPrefix envs generated.Active 0 ((activeSpecs ports).take j) ++
          startedTrace envs generated.Active j spec ++
          [.executeHook "portForwarding.error" spec (some err)],
         some (((envs j).errorHook err).getD err)) ∧
      countHook "portForwarding.start" (StartPortForwarding serviceClient envs).1 = j + 1 ∧
      countKind .callStartForwarding (StartPortForwarding serviceClient envs).1 = j + 1 ∧
      countHook "portForwarding.error" (StartPortForwarding serviceClient envs).1 = 1) ∧
    ((StartPortForwarding serviceClient envs).2 = none ↔
      ∀ (j : Nat) (spec : PortForwardingConfig), (activeSpecs ports)[j]? = some spec →
        specStarted envs j spec) ∧
    ((∀ (j : Nat) (spec : PortForwardingConfig), (activeSpecs ports)[j]? = some spec →
        specStarted envs j spec) →
      (StartPortForwarding serviceClient envs).1 =
        startedPrefix envs generated.Active 0 (activeSpecs ports)) := by
  have hSPF := StartPortForwarding_eq_portsLoop serviceClient envs ports generated hconfig
  have hne := mem_activeSpecs ports
  rw [hSPF]
  refine ⟨?_, ?_, ?_, ?_⟩
  · intro j spec pluginErr hget hok hhook
    have hp := portsLoop_prefix envs generated.Active j (activeSpecs ports) 0 hne
      (fun i s hi hs => by simpa using hok i s hi hs)
    obtain ⟨hdrop, hlen⟩ := drop_of_getElem? (activeSpecs ports) j spec hget
    have hs : spec.PortMappings.length ≠ 0 := hne spec (List.getElem?_mem hget)
    obtain ⟨c1, c2, c3⟩ :=
      startedPrefix_counts envs generated.Active ((activeSpecs ports).take j) 0
    rw [hdrop] at hp
    simp only [portsLoop, hs, if_false, Nat.zero_add, hhook] at hp
    rw [hp]
    refine ⟨rfl, ?_, ?_, ?_⟩
    · simp [c1, hlen, Event.isHook]
    · simp [c2, hlen, Event.kind]
    · simp [c3, Event.isHook]
  · intro j spec err hget hok hhook herr
    have hp := portsLoop_prefix envs generated.Active j (activeSpecs ports) 0 hne
      (fun i s hi hs => by simpa using hok i s hi hs)
    obtain ⟨hdrop, hlen⟩ := drop_of_getElem? (activeSpecs ports) j spec hget
    have hs : spec.PortMappings.length ≠ 0 := hne spec (List.getElem?_mem hget)
    obtain ⟨c1, c2, c3⟩ :=
      startedPrefix_counts envs generated.Active ((activeSpecs ports).take j) 0
    have k1 := countHook_startForwarding (envs j).call spec .client
    have k2 := countKind_startForwarding (envs j).call spec .client .callStartForwarding
      (by simp)
    have hst : startedTrace envs generated.Active j spec =
        [.executeHook "portForwarding.start" spec none,
         .callStartForwarding generated.Active spec .client] ++
          (startForwarding (envs j).call spec .client).1 := rfl
    rcases hcall : startForwarding (envs j).call spec .client with ⟨t, r⟩
    rw [hcall] at herr k1 k2 hst
    simp only at herr k1 k2 hst
    subst herr
    rw [hdrop] at hp
    simp only [portsLoop, hs, if_false, Nat.zero_add, hhook, hcall] at hp
    have hp' : portsLoop envs generated.Active (activeSpecs ports) 0 =
        (startedPrefix envs generated.Active 0 ((activeSpecs ports).take j) ++
          startedTrace envs generated.Active j spec ++
          [.executeHook "portForwarding.error" spec (some err)],
         some (((envs j).errorHook err).getD err)) := by
      rw [hp, hst]
      cases (envs j).errorHook err <;> simp
    rw [hp', hst]
    refine ⟨rfl, ?_, ?_, ?_⟩
    · simp [c1, hlen, k1, Event.isHook]
    · simp [c2, hlen, k2, Event.kind]
    · simp [c3, k1, Event.isHook]
  · constructor
    · intro hres j spec hget
      have := portsLoop_none envs generated.Active (activeSpecs ports) 0 hne hres j spec hget
      simpa using this
    · intro hall
      have hp := portsLoop_prefix envs generated.Active (activeSpecs ports).length
        (activeSpecs ports) 0 hne (fun i s _ hs => by simpa using hall i s hs)
      rw [hp]
      simp [portsLoop]
  · intro hall
    have hp := portsLoop_prefix envs generated.Active (activeSpecs ports).length
      (activeSpecs ports) 0 hne (fun i s _ hs => by simpa using hall i s hs)
    rw [hp]
    simp [portsLoop]

/-- C5, witness: of three specs with port mappings (and one without, which is
skipped) the second fails in the target selector. -/
theorem StartPortForwarding_failFast_witness :
    StartPortForwarding (clientOf [sampleSpec, emptySpec, brokenSpec, sampleSpec])
        orchestratorEnvs =
      (startedPrefix orchestratorEnvs { id := 0 } 0
          ((activeSpecs [sampleSpec, emptySpec, brokenSpec, sampleSpec]).take 1) ++
        startedTrace orchestratorEnvs { id := 0 } 1 brokenSpec ++
        [.executeHook "portForwarding.error" brokenSpec
          (some (.new "Error selecting pod: timeout"))],
       some (((orchestratorEnvs 1).errorHook (.new "Error selecting pod: timeout")).getD
          (.new "Error selecting pod: timeout"))) ∧
    countHook "portForwarding.start"
      (StartPortForwarding (clientOf [sampleSpec, emptySpec, brokenSpec, sampleSpec])
        orchestratorEnvs).1 = 1 + 1 ∧
    countKind .callStartForwarding
      (StartPortForwarding (clientOf [sampleSpec, emptySpec, brokenSpec, sampleSpec])
        orchestratorEnvs).1 = 1 + 1 ∧
    countHook "portForwarding.error"
      (StartPortForwarding (clientOf [sampleSpec, emptySpec, brokenSpec, sampleSpec])
        orchestratorEnvs).1 = 1 :=
  (StartPortForwarding_failFast (clientOf [sampleSpec, emptySpec, brokenSpec, sampleSpec])
    orchestratorEnvs [sampleSpec, emptySpec, brokenSpec, sampleSpec]
    { Active := { id := 0 } } rfl).2.1 1 brokenSpec (.new "Error selecting pod: timeout")
    rfl
    (by
      intro i s hi hs
      obtain rfl : i = 0 := by omega
      have h0 : (activeSpecs [sampleSpec, emptySpec, brokenSpec, sampleSpec])[0]?
          = some sampleSpec := rfl
      rw [h0] at hs
      cases hs
      exact ⟨rfl, rfl⟩)
    rfl rfl

/-- C6: a spec whose port-mapping list is empty is skipped by
`StartPortForwarding`: the run (every hook, every call of `startForwarding`,
and the result) is the run on the configuration without that spec, and on a
configuration of that spec alone nothing is done and `nil` is returned. -/
theorem StartPortForwarding_emptyMappings (envs : Nat → SpecEnv)
    (before after : List PortForwardingConfig) (spec : PortForwardingConfig)
    (generated : GeneratedConfig) (hempty : spec.PortMappings = []) :
    StartPortForwarding
        { config := some { Ports := some (before ++ spec :: after),
                           Generated := some generated } } envs =
      StartPortForwarding
        { config := some { Ports := some (before ++ after), Generated := some generated } }
        envs ∧
    StartPortForwarding
        { config := some { Ports := some [spec], Generated := some generated } } envs =
      ([], none) := by
  have hact : ∀ pre post : List PortForwardingConfig,
      activeSpecs (pre ++ spec :: post) = activeSpecs (pre ++ post) := by
    intro pre post
    simp [activeSpecs, List.filter_append, List.filter, hempty]
  constructor
  · rw [StartPortForwarding_eq_portsLoop _ envs (before ++ spec :: after) generated rfl,
      StartPortForwarding_eq_portsLoop _ envs (before ++ after) generated rfl, hact]
  · rw [StartPortForwarding_eq_portsLoop _ envs [spec] generated rfl]
    have := hact [] []
    simp only [List.nil_append] at this
    rw [this]
    rfl

/-- C6, witness: `emptySpec` between two specs with port mappings. -/
theorem StartPortForwarding_emptyMappings_witness :
    StartPortForwarding
        { config := some { Ports := some ([sampleSpec] ++ emptySpec :: [brokenSpec]),
                           Generated := some { Active := { id := 0 } } } }
        orchestratorEnvs =
      StartPortForwarding
        { config := some { Ports := some ([sampleSpec] ++ [brokenSpec]),
                           Generated := some { Active := { id := 0 } } } }
        orchestratorEnvs ∧
    StartPortForwarding
        { config := some { Ports := some [emptySpec],
                           Generated := some { Active := { id := 0 } } } }
        orchestratorEnvs =
      ([], none) :=
  StartPortForwarding_emptyMappings orchestratorEnvs [sampleSpec] [brokenSpec] emptySpec
    { Active := { id := 0 } } rfl

end DevSpace
